import Mathlib

/-!
Verification of the carousel lifecycle state machine of the portfolio page
(src/script.js).  The shallow embedding below models the refactored
per-gallery carousel closure (script.js lines 1894-2571), the module-level
viewport observer (lines 1747-1878) and the fullscreen modal
(lines 3172-3341).

Modelling conventions:
* Every closure variable of `initializeSingleCarousel` becomes a field of
  `Carousel`.  Timestamps (`performance.now()`) are integer milliseconds
  passed explicitly as a `now : Int` argument to the operations that read
  the clock.
* `timer : Bool` means "a fallback timeout for the current autoplay cycle
  is scheduled"; `progressEndHandler : Bool` means "the `progressEndHandler`
  closure variable holds the attached transitionend listener";
  `animationFrame` likewise for the pending rAF.
* The CSS width transition of the progress fill is modelled by
  `fillPct` (the width fraction the transition started from),
  `fillStartTs` (when it started) and `fillDur` (its duration in ms;
  0 = no transition running).  `renderedFill` computes the width a
  `getComputedStyle` read would see at a given time.  The
  `requestAnimationFrame` deferral of the `width: 100%` write is collapsed
  into `startAuto` (the transition is taken to start at the call).
* The galleries this code runs on always have a `.carousel-progress-fill`
  element, so the `if (progressFill)` branches are taken.
* The fallback timeout's trailing `timer = null` only drops the variable
  that holds the cancellation handle; the model keeps `timer` meaning
  "a fallback for the live cycle is scheduled", which is the state the
  rest of the code reasons about.
-/

/-- `const intervalMs = 5000` (script.js:1917): autoplay interval in ms. -/
def intervalMs : Int := 5000

/-- `Math.max(0, Math.min(1, x))` as used on progress fractions. -/
def clamp01 (q : ℚ) : ℚ := max 0 (min 1 q)

/-- `Math.max(0, Math.min(intervalMs, elapsed))` as used on elapsed times. -/
def clampElapsed (e : Int) : Int := max 0 (min intervalMs e)

/-- `const remaining = Math.max(16, intervalMs - pauseElapsed)`
(script.js:2070; the first carousel variant has the identical line at 437). -/
def startAutoRemaining (pauseElapsed : Int) : Int :=
  max 16 (intervalMs - pauseElapsed)

/-- The fallback timeout of a cycle is armed `remaining + 200` ms after the
cycle starts (script.js:2157: `}, remaining + 200);`). -/
def guardMargin : Int := 200

/-- The closure state of one `initializeSingleCarousel` instance
(script.js:1896-1933), one field per closure variable. -/
structure Carousel where
  /-- `slides.length`; construction aborts when 0 (script.js:1913). -/
  slideCount : Nat
  /-- `let index = 0` -/
  index : Int
  /-- `let timer = null` : fallback timeout scheduled for the live cycle. -/
  timer : Bool
  /-- `let animationFrame = null` -/
  animationFrame : Bool
  /-- `let startTs = 0` -/
  startTs : Int
  /-- `let pauseElapsed = 0` -/
  pauseElapsed : Int
  /-- `let paused = false` (the manual pause flag). -/
  paused : Bool
  /-- `let viewportPaused = false` -/
  viewportPaused : Bool
  /-- `let initialized = false` -/
  initialized : Bool
  /-- `let destroyed = false` -/
  destroyed : Bool
  /-- `let pausedByFullscreen = false` -/
  pausedByFullscreen : Bool
  /-- `let shouldAutoStart = false` -/
  shouldAutoStart : Bool
  /-- `let isInViewport = false` -/
  isInViewport : Bool
  /-- `let progressEndHandler = null` : transitionend listener variable set. -/
  progressEndHandler : Bool
  /-- the live cycle's one-shot `let advanced = false` guard (script.js:2087). -/
  advanced : Bool
  /-- the 100 ms settle timeout scheduled by `initialize` (script.js:2281). -/
  initTimerPending : Bool
  /-- width fraction the progress fill's transition starts from. -/
  fillPct : ℚ
  /-- when the running width transition started. -/
  fillStartTs : Int
  /-- duration of the running width transition (0 = none). -/
  fillDur : Int
  deriving Repr, DecidableEq

/-- State of a freshly constructed carousel closure (script.js:1916-1933). -/
def mkCarousel (n : Nat) : Carousel :=
  { slideCount := n, index := 0, timer := false, animationFrame := false
    startTs := 0, pauseElapsed := 0, paused := false, viewportPaused := false
    initialized := false, destroyed := false, pausedByFullscreen := false
    shouldAutoStart := false, isInViewport := false
    progressEndHandler := false, advanced := false, initTimerPending := false
    fillPct := 0, fillStartTs := 0, fillDur := 0 }

/-- The width fraction `getComputedStyle(progressFill).width` would report at
time `now`: a CSS `width ... linear` transition from `fillPct` to 100 %. -/
def renderedFill (now : Int) (c : Carousel) : ℚ :=
  if c.fillDur = 0 then c.fillPct
  else c.fillPct + (1 - c.fillPct) * clamp01 ((((now - c.fillStartTs) : Int) : ℚ) / ((c.fillDur : Int) : ℚ))

/-- `stopAuto` (script.js:2018-2060): remove the transitionend listener,
clear the fallback timeout and the rAF, and freeze the fill at the width
currently rendered (read back from computed style). -/
def stopAuto (now : Int) (c : Carousel) : Carousel :=
  if c.destroyed then c
  else
    { c with progressEndHandler := false, timer := false
             animationFrame := false
             fillPct := renderedFill now c, fillDur := 0 }

/-- `setActive(i, { resetProgress })` (script.js:1946-1982): wrap the target
index with `(i + slides.length) % slides.length` (JS `%` is truncating
remainder, `Int.tmod`), early-return when nothing changes and no reset was
forced, otherwise update the index and, on reset, snap the fill to 0 %. -/
def setActive (i : Int) (resetProgress : Bool) (c : Carousel) : Carousel :=
  if c.destroyed then c
  else
    let n : Int := c.slideCount
    let newIndex := (i + n).tmod n
    if newIndex = c.index ∧ ¬resetProgress then c
    else
      let c1 := { c with index := newIndex }
      if resetProgress then { c1 with fillPct := 0, fillDur := 0 } else c1

/-- `completeProgressReset` (script.js:1984-2004): stop automation, force the
fill to 0 % and clear the timing variables. -/
def completeProgressReset (now : Int) (c : Carousel) : Carousel :=
  if c.destroyed then c
  else
    let c1 := stopAuto now c
    { c1 with fillPct := 0, fillDur := 0, pauseElapsed := 0, startTs := 0 }

/-- `next` (script.js:2006-2010). -/
def nextSlide (now : Int) (c : Carousel) : Carousel :=
  if c.destroyed then c
  else
    let c1 := completeProgressReset now c
    setActive (c1.index + 1) true c1

/-- `prev` (script.js:2012-2016). -/
def prevSlide (now : Int) (c : Carousel) : Carousel :=
  if c.destroyed then c
  else
    let c1 := completeProgressReset now c
    setActive (c1.index - 1) true c1

/-- `startAuto` (script.js:2062-2168): stop any existing automation, compute
the remaining time, restart the width transition from the clamped current
fraction, attach a fresh transitionend listener with a fresh one-shot
`advanced` guard, schedule the fallback timeout, and set
`startTs = performance.now() - pauseElapsed`. -/
def startAuto (now : Int) (c : Carousel) : Carousel :=
  if c.destroyed ∨ c.viewportPaused then c
  else
    let c1 := stopAuto now c
    let remaining := startAutoRemaining c1.pauseElapsed
    let currentPct := clamp01 ((c1.pauseElapsed : ℚ) / ((intervalMs : Int) : ℚ))
    { c1 with fillPct := currentPct, fillStartTs := now, fillDur := remaining
              progressEndHandler := true, advanced := false
              animationFrame := false, timer := true
              startTs := now - c1.pauseElapsed }

/-- The body of the cycle's `advance(source)` after its guards have passed
(script.js:2094-2131): detach listener/timeout/rAF, zero `pauseElapsed`,
advance one slide with a progress reset, and start the next cycle. -/
def advanceBody (now : Int) (c : Carousel) : Carousel :=
  let c1 := { c with progressEndHandler := false, timer := false
                     animationFrame := false, pauseElapsed := 0 }
  let c2 := setActive (c1.index + 1) true c1
  startAuto now c2

/-- `advance(source)` of the live cycle (script.js:2088-2131): a one-shot
`advanced` guard plus a pause/destroy re-check make a second trigger a
no-op. -/
def advanceFire (now : Int) (c : Carousel) : Carousel :=
  if c.advanced then c
  else if c.viewportPaused ∨ c.destroyed ∨ c.paused then c
  else advanceBody now c

/-- Delivery of the `transitionend` event to `progressEndHandler`
(script.js:2134-2146). -/
def fireTransitionEnd (now : Int) (c : Carousel) : Carousel :=
  if c.progressEndHandler then advanceFire now c else c

/-- Firing of the fallback timeout (script.js:2150-2158): re-check the flags
and the guard, then advance; the spent timeout is consumed. -/
def fireFallback (now : Int) (c : Carousel) : Carousel :=
  if ¬c.timer then c
  else if ¬c.viewportPaused ∧ ¬c.destroyed ∧ ¬c.paused ∧ ¬c.advanced then
    advanceFire now c
  else { c with timer := false }

/-- `pauseAutoplay` (script.js:2170-2194): set the manual pause flag, record
the clamped elapsed time, stop automation, and pin the fill at the clamped
fraction. -/
def pauseAutoplay (now : Int) (c : Carousel) : Carousel :=
  if c.destroyed ∨ c.paused then c
  else
    let elapsed := if c.startTs = 0 then 0 else now - c.startTs
    let pe := clampElapsed elapsed
    let c1 := stopAuto now { c with paused := true, pauseElapsed := pe }
    { c1 with fillPct := clamp01 ((pe : ℚ) / ((intervalMs : Int) : ℚ)), fillDur := 0 }

/-- `resumeAutoplay` (script.js:2196-2205): clear the manual flag and restart;
refuses only when not manually paused or when viewport-paused. -/
def resumeAutoplay (now : Int) (c : Carousel) : Carousel :=
  if c.destroyed ∨ ¬c.paused ∨ c.viewportPaused then c
  else startAuto now { c with paused := false }

/-- `pauseForViewport` (script.js:2207-2231): set the viewport flag, record
the clamped elapsed time if a cycle was running unpaused, stop automation,
and pin the fill at the clamped fraction. -/
def pauseForViewport (now : Int) (c : Carousel) : Carousel :=
  if c.destroyed ∨ c.viewportPaused then c
  else
    let c0 := { c with viewportPaused := true, isInViewport := false }
    let c1 := if c0.timer ∧ ¬c0.paused
              then { c0 with pauseElapsed := clampElapsed (now - c0.startTs) }
              else c0
    let c2 := stopAuto now c1
    { c2 with fillPct := clamp01 ((c2.pauseElapsed : ℚ) / ((intervalMs : Int) : ℚ))
              fillDur := 0 }

/-- `resumeFromViewportPause` (script.js:2233-2259): clear the viewport flag;
do nothing further while fullscreen is open; honor a pending auto-start;
otherwise restart only when not manually paused. -/
def resumeFromViewportPause (now : Int) (c : Carousel) : Carousel :=
  if c.destroyed then c
  else
    let c1 := { c with viewportPaused := false, isInViewport := true }
    if c1.pausedByFullscreen then c1
    else if c1.shouldAutoStart then
      startAuto now (completeProgressReset now
        { c1 with shouldAutoStart := false, paused := false })
    else if ¬c1.paused then startAuto now c1
    else c1

/-- `initialize` (script.js:2261-2291): one-shot; reset to slide 0; when a
fullscreen pause is pending, only record the owed auto-start; otherwise
schedule the 100 ms settle timeout. -/
def initInstance (now : Int) (c : Carousel) : Carousel :=
  if c.destroyed ∨ c.initialized then c
  else
    let c0 := { c with initialized := true, isInViewport := true }
    if c0.slideCount = 0 then c0
    else
      let c1 := setActive 0 true (completeProgressReset now c0)
      if c1.pausedByFullscreen then { c1 with shouldAutoStart := true }
      else { c1 with initTimerPending := true }

/-- Firing of the settle timeout scheduled by `initialize`
(script.js:2281-2286): re-check the flags, then start autoplay. -/
def settleFire (now : Int) (c : Carousel) : Carousel :=
  if ¬c.initTimerPending then c
  else
    let c1 := { c with initTimerPending := false }
    if ¬c1.viewportPaused ∧ ¬c1.destroyed ∧ ¬c1.paused then startAuto now c1
    else c1

/-- `onFullscreenOpen` (script.js:2294-2312): set the fullscreen flag; for a
never-initialized owner just record the intent in its own flags, otherwise
pause safely. -/
def onFullscreenOpen (now : Int) (c : Carousel) : Carousel :=
  if c.destroyed then c
  else
    let c1 := { c with pausedByFullscreen := true }
    if ¬c1.initialized then { c1 with paused := true, shouldAutoStart := true }
    else pauseAutoplay now c1

/-- `onFullscreenClose` (script.js:2314-2336): clear the fullscreen flag;
resume immediately when initialized and in the viewport, otherwise record a
pending auto-start. -/
def onFullscreenClose (now : Int) (c : Carousel) : Carousel :=
  if c.destroyed then c
  else
    let c1 := { c with pausedByFullscreen := false }
    if c1.initialized ∧ c1.isInViewport then
      startAuto now (completeProgressReset now
        { c1 with paused := false, shouldAutoStart := false })
    else { c1 with paused := false, shouldAutoStart := true }

/-- `resetProgress` (script.js:2338-2350): snap the fill to 0 % without a
transition. -/
def resetProgressBar (c : Carousel) : Carousel :=
  if c.destroyed then c else { c with fillPct := 0, fillDur := 0 }

/-- The next-button click handler (script.js:2353-2367). -/
def nextBtnClick (now : Int) (c : Carousel) : Carousel :=
  if c.destroyed then c
  else
    let c1 := nextSlide now c
    if ¬c1.paused ∧ ¬c1.viewportPaused then startAuto now c1
    else if c1.paused then resetProgressBar c1
    else c1

/-- The prev-button click handler (script.js:2369-2383). -/
def prevBtnClick (now : Int) (c : Carousel) : Carousel :=
  if c.destroyed then c
  else
    let c1 := prevSlide now c
    if ¬c1.paused ∧ ¬c1.viewportPaused then startAuto now c1
    else if c1.paused then resetProgressBar c1
    else c1

/-- The dot click handler for dot `idx` (script.js:2385-2401). -/
def dotClick (idx : Nat) (now : Int) (c : Carousel) : Carousel :=
  if c.destroyed then c
  else
    let c1 := setActive (idx : Int) true (completeProgressReset now c)
    if ¬c1.paused ∧ ¬c1.viewportPaused then startAuto now c1
    else if c1.paused then resetProgressBar c1
    else c1

/-- `carouselState.cleanup` (script.js:2514-2562): one-shot teardown.
`destroyed` is set first, so the inner `stopAuto()` call fails its
`validateState()` check and does nothing; the pending timeout/rAF handles
are released through the `cleanupTimeouts`/`cleanupRafs` sets; the
`progressEndHandler` variable is left as-is (no cleanup entry removes the
listener); finally the state variables are reset. -/
def cleanup (c : Carousel) : Carousel :=
  if c.destroyed then c
  else
    { c with destroyed := true
             timer := false, animationFrame := false, initTimerPending := false
             initialized := false, paused := false, viewportPaused := false
             pauseElapsed := 0, index := 0 }

/-- Every operation reachable through the instance's public surface
(`carouselState`, script.js:2486-2563) or through one of its scheduled
callbacks. -/
inductive Op where
  | nextBtn : Op
  | prevBtn : Op
  | dot : Nat → Op
  | pauseManual : Op
  | resumeManual : Op
  | pauseViewport : Op
  | resumeViewport : Op
  | fsOpen : Op
  | fsClose : Op
  | doInit : Op
  | settle : Op
  | transEnd : Op
  | fallback : Op
  | teardown : Op
  deriving Repr, DecidableEq

/-- Dispatch of an operation at clock time `now`. -/
def applyOp (op : Op) (now : Int) (c : Carousel) : Carousel :=
  match op with
  | .nextBtn => nextBtnClick now c
  | .prevBtn => prevBtnClick now c
  | .dot idx => dotClick idx now c
  | .pauseManual => pauseAutoplay now c
  | .resumeManual => resumeAutoplay now c
  | .pauseViewport => pauseForViewport now c
  | .resumeViewport => resumeFromViewportPause now c
  | .fsOpen => onFullscreenOpen now c
  | .fsClose => onFullscreenClose now c
  | .doInit => initInstance now c
  | .settle => settleFire now c
  | .transEnd => fireTransitionEnd now c
  | .fallback => fireFallback now c
  | .teardown => cleanup c

/-- A 4-slide instance that has become visible (initialized at t = 0) and
whose settle timeout fired at t = 100: autoplay is running. -/
def playState : Carousel := settleFire 100 (initInstance 0 (mkCarousel 4))

/-! ### Field-preservation helper lemmas -/

lemma tmod_range {a n : Int} (ha : 0 ≤ a) (hn : 0 < n) :
    0 ≤ a.tmod n ∧ a.tmod n < n := by
  rw [Int.tmod_eq_emod ha (le_of_lt hn)]
  exact ⟨Int.emod_nonneg a (ne_of_gt hn), Int.emod_lt_of_pos a hn⟩

@[simp] lemma stopAuto_slideCount (now : Int) (c : Carousel) :
    (stopAuto now c).slideCount = c.slideCount := by
  unfold stopAuto; split <;> rfl

@[simp] lemma stopAuto_index (now : Int) (c : Carousel) :
    (stopAuto now c).index = c.index := by
  unfold stopAuto; split <;> rfl

@[simp] lemma stopAuto_destroyed (now : Int) (c : Carousel) :
    (stopAuto now c).destroyed = c.destroyed := by
  unfold stopAuto; split <;> rfl

@[simp] lemma stopAuto_pauseElapsed (now : Int) (c : Carousel) :
    (stopAuto now c).pauseElapsed = c.pauseElapsed := by
  unfold stopAuto; split <;> rfl

@[simp] lemma stopAuto_paused (now : Int) (c : Carousel) :
    (stopAuto now c).paused = c.paused := by
  unfold stopAuto; split <;> rfl

@[simp] lemma stopAuto_viewportPaused (now : Int) (c : Carousel) :
    (stopAuto now c).viewportPaused = c.viewportPaused := by
  unfold stopAuto; split <;> rfl

@[simp] lemma stopAuto_initialized (now : Int) (c : Carousel) :
    (stopAuto now c).initialized = c.initialized := by
  unfold stopAuto; split <;> rfl

@[simp] lemma stopAuto_pausedByFullscreen (now : Int) (c : Carousel) :
    (stopAuto now c).pausedByFullscreen = c.pausedByFullscreen := by
  unfold stopAuto; split <;> rfl

@[simp] lemma stopAuto_shouldAutoStart (now : Int) (c : Carousel) :
    (stopAuto now c).shouldAutoStart = c.shouldAutoStart := by
  unfold stopAuto; split <;> rfl

@[simp] lemma stopAuto_isInViewport (now : Int) (c : Carousel) :
    (stopAuto now c).isInViewport = c.isInViewport := by
  unfold stopAuto; split <;> rfl

@[simp] lemma stopAuto_startTs (now : Int) (c : Carousel) :
    (stopAuto now c).startTs = c.startTs := by
  unfold stopAuto; split <;> rfl

@[simp] lemma stopAuto_initTimerPending (now : Int) (c : Carousel) :
    (stopAuto now c).initTimerPending = c.initTimerPending := by
  unfold stopAuto; split <;> rfl

@[simp] lemma startAuto_slideCount (now : Int) (c : Carousel) :
    (startAuto now c).slideCount = c.slideCount := by
  unfold startAuto; split <;> simp

@[simp] lemma startAuto_index (now : Int) (c : Carousel) :
    (startAuto now c).index = c.index := by
  unfold startAuto; split <;> simp

@[simp] lemma startAuto_destroyed (now : Int) (c : Carousel) :
    (startAuto now c).destroyed = c.destroyed := by
  unfold startAuto; split <;> simp

@[simp] lemma startAuto_paused (now : Int) (c : Carousel) :
    (startAuto now c).paused = c.paused := by
  unfold startAuto; split <;> simp

@[simp] lemma startAuto_viewportPaused (now : Int) (c : Carousel) :
    (startAuto now c).viewportPaused = c.viewportPaused := by
  unfold startAuto; split <;> simp

@[simp] lemma startAuto_initialized (now : Int) (c : Carousel) :
    (startAuto now c).initialized = c.initialized := by
  unfold startAuto; split <;> simp

@[simp] lemma startAuto_pausedByFullscreen (now : Int) (c : Carousel) :
    (startAuto now c).pausedByFullscreen = c.pausedByFullscreen := by
  unfold startAuto; split <;> simp

@[simp] lemma startAuto_shouldAutoStart (now : Int) (c : Carousel) :
    (startAuto now c).shouldAutoStart = c.shouldAutoStart := by
  unfold startAuto; split <;> simp

@[simp] lemma startAuto_isInViewport (now : Int) (c : Carousel) :
    (startAuto now c).isInViewport = c.isInViewport := by
  unfold startAuto; split <;> simp

@[simp] lemma startAuto_pauseElapsed (now : Int) (c : Carousel) :
    (startAuto now c).pauseElapsed = c.pauseElapsed := by
  unfold startAuto; split <;> simp

@[simp] lemma startAuto_initTimerPending (now : Int) (c : Carousel) :
    (startAuto now c).initTimerPending = c.initTimerPending := by
  unfold startAuto; split <;> simp

@[simp] lemma completeProgressReset_slideCount (now : Int) (c : Carousel) :
    (completeProgressReset now c).slideCount = c.slideCount := by
  unfold completeProgressReset; split <;> simp

@[simp] lemma completeProgressReset_index (now : Int) (c : Carousel) :
    (completeProgressReset now c).index = c.index := by
  unfold completeProgressReset; split <;> simp

@[simp] lemma completeProgressReset_destroyed (now : Int) (c : Carousel) :
    (completeProgressReset now c).destroyed = c.destroyed := by
  unfold completeProgressReset; split <;> simp

@[simp] lemma completeProgressReset_paused (now : Int) (c : Carousel) :
    (completeProgressReset now c).paused = c.paused := by
  unfold completeProgressReset; split <;> simp

@[simp] lemma completeProgressReset_viewportPaused (now : Int) (c : Carousel) :
    (completeProgressReset now c).viewportPaused = c.viewportPaused := by
  unfold completeProgressReset; split <;> simp

@[simp] lemma completeProgressReset_initialized (now : Int) (c : Carousel) :
    (completeProgressReset now c).initialized = c.initialized := by
  unfold completeProgressReset; split <;> simp

@[simp] lemma completeProgressReset_pausedByFullscreen (now : Int) (c : Carousel) :
    (completeProgressReset now c).pausedByFullscreen = c.pausedByFullscreen := by
  unfold completeProgressReset; split <;> simp

@[simp] lemma completeProgressReset_shouldAutoStart (now : Int) (c : Carousel) :
    (completeProgressReset now c).shouldAutoStart = c.shouldAutoStart := by
  unfold completeProgressReset; split <;> simp

@[simp] lemma completeProgressReset_isInViewport (now : Int) (c : Carousel) :
    (completeProgressReset now c).isInViewport = c.isInViewport := by
  unfold completeProgressReset; split <;> simp

@[simp] lemma completeProgressReset_initTimerPending (now : Int) (c : Carousel) :
    (completeProgressReset now c).initTimerPending = c.initTimerPending := by
  unfold completeProgressReset; split <;> simp

@[simp] lemma setActive_slideCount (i : Int) (b : Bool) (c : Carousel) :
    (setActive i b c).slideCount = c.slideCount := by
  unfold setActive; split_ifs <;> simp_all <;> split <;> first | rfl | assumption

@[simp] lemma setActive_destroyed (i : Int) (b : Bool) (c : Carousel) :
    (setActive i b c).destroyed = c.destroyed := by
  unfold setActive; split_ifs <;> simp_all <;> split <;> first | rfl | assumption

@[simp] lemma setActive_paused (i : Int) (b : Bool) (c : Carousel) :
    (setActive i b c).paused = c.paused := by
  unfold setActive; split_ifs <;> simp_all <;> split <;> first | rfl | assumption

@[simp] lemma setActive_viewportPaused (i : Int) (b : Bool) (c : Carousel) :
    (setActive i b c).viewportPaused = c.viewportPaused := by
  unfold setActive; split_ifs <;> simp_all <;> split <;> first | rfl | assumption

@[simp] lemma setActive_initialized (i : Int) (b : Bool) (c : Carousel) :
    (setActive i b c).initialized = c.initialized := by
  unfold setActive; split_ifs <;> simp_all <;> split <;> first | rfl | assumption

@[simp] lemma setActive_pausedByFullscreen (i : Int) (b : Bool) (c : Carousel) :
    (setActive i b c).pausedByFullscreen = c.pausedByFullscreen := by
  unfold setActive; split_ifs <;> simp_all <;> split <;> first | rfl | assumption

@[simp] lemma setActive_shouldAutoStart (i : Int) (b : Bool) (c : Carousel) :
    (setActive i b c).shouldAutoStart = c.shouldAutoStart := by
  unfold setActive; split_ifs <;> simp_all <;> split <;> first | rfl | assumption

@[simp] lemma setActive_isInViewport (i : Int) (b : Bool) (c : Carousel) :
    (setActive i b c).isInViewport = c.isInViewport := by
  unfold setActive; split_ifs <;> simp_all <;> split <;> first | rfl | assumption

@[simp] lemma setActive_timer (i : Int) (b : Bool) (c : Carousel) :
    (setActive i b c).timer = c.timer := by
  unfold setActive; split_ifs <;> simp_all <;> split <;> first | rfl | assumption

@[simp] lemma setActive_pauseElapsed (i : Int) (b : Bool) (c : Carousel) :
    (setActive i b c).pauseElapsed = c.pauseElapsed := by
  unfold setActive; split_ifs <;> simp_all <;> split <;> first | rfl | assumption

@[simp] lemma setActive_startTs (i : Int) (b : Bool) (c : Carousel) :
    (setActive i b c).startTs = c.startTs := by
  unfold setActive; split_ifs <;> simp_all <;> split <;> first | rfl | assumption

@[simp] lemma setActive_initTimerPending (i : Int) (b : Bool) (c : Carousel) :
    (setActive i b c).initTimerPending = c.initTimerPending := by
  unfold setActive; split_ifs <;> simp_all <;> split <;> first | rfl | assumption

@[simp] lemma setActive_progressEndHandler (i : Int) (b : Bool) (c : Carousel) :
    (setActive i b c).progressEndHandler = c.progressEndHandler := by
  unfold setActive; split_ifs <;> simp_all <;> split <;> first | rfl | assumption

@[simp] lemma setActive_advanced (i : Int) (b : Bool) (c : Carousel) :
    (setActive i b c).advanced = c.advanced := by
  unfold setActive; split_ifs <;> simp_all <;> split <;> first | rfl | assumption

@[simp] lemma resetProgressBar_slideCount (c : Carousel) :
    (resetProgressBar c).slideCount = c.slideCount := by
  unfold resetProgressBar; split <;> rfl

@[simp] lemma resetProgressBar_index (c : Carousel) :
    (resetProgressBar c).index = c.index := by
  unfold resetProgressBar; split <;> rfl

@[simp] lemma resetProgressBar_destroyed (c : Carousel) :
    (resetProgressBar c).destroyed = c.destroyed := by
  unfold resetProgressBar; split <;> rfl

@[simp] lemma resetProgressBar_paused (c : Carousel) :
    (resetProgressBar c).paused = c.paused := by
  unfold resetProgressBar; split <;> rfl

@[simp] lemma resetProgressBar_viewportPaused (c : Carousel) :
    (resetProgressBar c).viewportPaused = c.viewportPaused := by
  unfold resetProgressBar; split <;> rfl

@[simp] lemma resetProgressBar_timer (c : Carousel) :
    (resetProgressBar c).timer = c.timer := by
  unfold resetProgressBar; split <;> rfl

@[simp] lemma resetProgressBar_pauseElapsed (c : Carousel) :
    (resetProgressBar c).pauseElapsed = c.pauseElapsed := by
  unfold resetProgressBar; split <;> rfl

@[simp] lemma resetProgressBar_initialized (c : Carousel) :
    (resetProgressBar c).initialized = c.initialized := by
  unfold resetProgressBar; split <;> rfl

lemma startAuto_skip (now : Int) (c : Carousel)
    (h : c.destroyed = true ∨ c.viewportPaused = true) : startAuto now c = c := by
  unfold startAuto
  rw [if_pos h]

lemma startAuto_timer_on (now : Int) (c : Carousel)
    (hd : c.destroyed = false) (hv : c.viewportPaused = false) :
    (startAuto now c).timer = true := by
  unfold startAuto
  rw [if_neg (by simp [hd, hv])]

lemma startAuto_fillDur_eq (now : Int) (c : Carousel)
    (hd : c.destroyed = false) (hv : c.viewportPaused = false) :
    (startAuto now c).fillDur = startAutoRemaining c.pauseElapsed := by
  unfold startAuto
  rw [if_neg (by simp [hd, hv])]
  simp

lemma startAuto_fillPct_eq (now : Int) (c : Carousel)
    (hd : c.destroyed = false) (hv : c.viewportPaused = false) :
    (startAuto now c).fillPct
      = clamp01 ((c.pauseElapsed : ℚ) / ((intervalMs : Int) : ℚ)) := by
  unfold startAuto
  rw [if_neg (by simp [hd, hv])]
  simp

@[simp] lemma pauseAutoplay_slideCount (now : Int) (c : Carousel) :
    (pauseAutoplay now c).slideCount = c.slideCount := by
  unfold pauseAutoplay; split_ifs <;> simp

@[simp] lemma pauseAutoplay_index (now : Int) (c : Carousel) :
    (pauseAutoplay now c).index = c.index := by
  unfold pauseAutoplay; split_ifs <;> simp

@[simp] lemma pauseAutoplay_destroyed (now : Int) (c : Carousel) :
    (pauseAutoplay now c).destroyed = c.destroyed := by
  unfold pauseAutoplay; split_ifs <;> simp

@[simp] lemma pauseAutoplay_initialized (now : Int) (c : Carousel) :
    (pauseAutoplay now c).initialized = c.initialized := by
  unfold pauseAutoplay; split_ifs <;> simp

@[simp] lemma pauseAutoplay_viewportPaused (now : Int) (c : Carousel) :
    (pauseAutoplay now c).viewportPaused = c.viewportPaused := by
  unfold pauseAutoplay; split_ifs <;> simp

@[simp] lemma pauseAutoplay_pausedByFullscreen (now : Int) (c : Carousel) :
    (pauseAutoplay now c).pausedByFullscreen = c.pausedByFullscreen := by
  unfold pauseAutoplay; split_ifs <;> simp

@[simp] lemma pauseAutoplay_shouldAutoStart (now : Int) (c : Carousel) :
    (pauseAutoplay now c).shouldAutoStart = c.shouldAutoStart := by
  unfold pauseAutoplay; split_ifs <;> simp

@[simp] lemma pauseAutoplay_isInViewport (now : Int) (c : Carousel) :
    (pauseAutoplay now c).isInViewport = c.isInViewport := by
  unfold pauseAutoplay; split_ifs <;> simp

@[simp] lemma pauseAutoplay_initTimerPending (now : Int) (c : Carousel) :
    (pauseAutoplay now c).initTimerPending = c.initTimerPending := by
  unfold pauseAutoplay; split_ifs <;> simp

@[simp] lemma resumeAutoplay_slideCount (now : Int) (c : Carousel) :
    (resumeAutoplay now c).slideCount = c.slideCount := by
  unfold resumeAutoplay; split_ifs <;> simp

@[simp] lemma resumeAutoplay_index (now : Int) (c : Carousel) :
    (resumeAutoplay now c).index = c.index := by
  unfold resumeAutoplay; split_ifs <;> simp

@[simp] lemma resumeAutoplay_destroyed (now : Int) (c : Carousel) :
    (resumeAutoplay now c).destroyed = c.destroyed := by
  unfold resumeAutoplay; split_ifs <;> simp

@[simp] lemma resumeAutoplay_initialized (now : Int) (c : Carousel) :
    (resumeAutoplay now c).initialized = c.initialized := by
  unfold resumeAutoplay; split_ifs <;> simp

@[simp] lemma resumeAutoplay_viewportPaused (now : Int) (c : Carousel) :
    (resumeAutoplay now c).viewportPaused = c.viewportPaused := by
  unfold resumeAutoplay; split_ifs <;> simp

@[simp] lemma resumeAutoplay_pausedByFullscreen (now : Int) (c : Carousel) :
    (resumeAutoplay now c).pausedByFullscreen = c.pausedByFullscreen := by
  unfold resumeAutoplay; split_ifs <;> simp

@[simp] lemma resumeAutoplay_shouldAutoStart (now : Int) (c : Carousel) :
    (resumeAutoplay now c).shouldAutoStart = c.shouldAutoStart := by
  unfold resumeAutoplay; split_ifs <;> simp

@[simp] lemma resumeAutoplay_isInViewport (now : Int) (c : Carousel) :
    (resumeAutoplay now c).isInViewport = c.isInViewport := by
  unfold resumeAutoplay; split_ifs <;> simp

@[simp] lemma pauseForViewport_slideCount (now : Int) (c : Carousel) :
    (pauseForViewport now c).slideCount = c.slideCount := by
  unfold pauseForViewport; split_ifs <;> simp <;> split <;> rfl

@[simp] lemma pauseForViewport_index (now : Int) (c : Carousel) :
    (pauseForViewport now c).index = c.index := by
  unfold pauseForViewport; split_ifs <;> simp <;> split <;> rfl

@[simp] lemma pauseForViewport_destroyed (now : Int) (c : Carousel) :
    (pauseForViewport now c).destroyed = c.destroyed := by
  unfold pauseForViewport; split_ifs <;> simp <;> split <;> rfl

@[simp] lemma pauseForViewport_initialized (now : Int) (c : Carousel) :
    (pauseForViewport now c).initialized = c.initialized := by
  unfold pauseForViewport; split_ifs <;> simp <;> split <;> rfl

@[simp] lemma pauseForViewport_paused (now : Int) (c : Carousel) :
    (pauseForViewport now c).paused = c.paused := by
  unfold pauseForViewport; split_ifs <;> simp <;> split <;> rfl

@[simp] lemma pauseForViewport_pausedByFullscreen (now : Int) (c : Carousel) :
    (pauseForViewport now c).pausedByFullscreen = c.pausedByFullscreen := by
  unfold pauseForViewport; split_ifs <;> simp <;> split <;> rfl

@[simp] lemma pauseForViewport_shouldAutoStart (now : Int) (c : Carousel) :
    (pauseForViewport now c).shouldAutoStart = c.shouldAutoStart := by
  unfold pauseForViewport; split_ifs <;> simp <;> split <;> rfl

@[simp] lemma pauseForViewport_initTimerPending (now : Int) (c : Carousel) :
    (pauseForViewport now c).initTimerPending = c.initTimerPending := by
  unfold pauseForViewport; split_ifs <;> simp <;> split <;> rfl

@[simp] lemma resumeFromViewportPause_slideCount (now : Int) (c : Carousel) :
    (resumeFromViewportPause now c).slideCount = c.slideCount := by
  unfold resumeFromViewportPause; split_ifs <;> simp <;> (try split_ifs) <;> (try simp)

@[simp] lemma resumeFromViewportPause_index (now : Int) (c : Carousel) :
    (resumeFromViewportPause now c).index = c.index := by
  unfold resumeFromViewportPause; split_ifs <;> simp <;> (try split_ifs) <;> (try simp)

@[simp] lemma resumeFromViewportPause_destroyed (now : Int) (c : Carousel) :
    (resumeFromViewportPause now c).destroyed = c.destroyed := by
  unfold resumeFromViewportPause; split_ifs <;> simp <;> (try split_ifs) <;> (try simp)

@[simp] lemma resumeFromViewportPause_initialized (now : Int) (c : Carousel) :
    (resumeFromViewportPause now c).initialized = c.initialized := by
  unfold resumeFromViewportPause; split_ifs <;> simp <;> (try split_ifs) <;> (try simp)

@[simp] lemma resumeFromViewportPause_pausedByFullscreen (now : Int) (c : Carousel) :
    (resumeFromViewportPause now c).pausedByFullscreen = c.pausedByFullscreen := by
  unfold resumeFromViewportPause; split_ifs <;> simp <;> (try split_ifs) <;> (try simp)

@[simp] lemma resumeFromViewportPause_isInViewport (now : Int) (c : Carousel)
    (hd : c.destroyed = false) :
    (resumeFromViewportPause now c).isInViewport = true := by
  unfold resumeFromViewportPause; split_ifs <;> simp_all <;> (try split_ifs) <;> (try simp_all)

@[simp] lemma resumeFromViewportPause_viewportPaused (now : Int) (c : Carousel)
    (hd : c.destroyed = false) :
    (resumeFromViewportPause now c).viewportPaused = false := by
  unfold resumeFromViewportPause; split_ifs <;> simp_all <;> (try split_ifs) <;> (try simp_all)

@[simp] lemma settleFire_slideCount (now : Int) (c : Carousel) :
    (settleFire now c).slideCount = c.slideCount := by
  unfold settleFire; split_ifs <;> simp <;> (try split_ifs) <;> (try simp)

@[simp] lemma settleFire_index (now : Int) (c : Carousel) :
    (settleFire now c).index = c.index := by
  unfold settleFire; split_ifs <;> simp <;> (try split_ifs) <;> (try simp)

@[simp] lemma settleFire_destroyed (now : Int) (c : Carousel) :
    (settleFire now c).destroyed = c.destroyed := by
  unfold settleFire; split_ifs <;> simp <;> (try split_ifs) <;> (try simp)

@[simp] lemma settleFire_initialized (now : Int) (c : Carousel) :
    (settleFire now c).initialized = c.initialized := by
  unfold settleFire; split_ifs <;> simp <;> (try split_ifs) <;> (try simp)

@[simp] lemma settleFire_paused (now : Int) (c : Carousel) :
    (settleFire now c).paused = c.paused := by
  unfold settleFire; split_ifs <;> simp <;> (try split_ifs) <;> (try simp)

@[simp] lemma settleFire_viewportPaused (now : Int) (c : Carousel) :
    (settleFire now c).viewportPaused = c.viewportPaused := by
  unfold settleFire; split_ifs <;> simp <;> (try split_ifs) <;> (try simp)

@[simp] lemma settleFire_pausedByFullscreen (now : Int) (c : Carousel) :
    (settleFire now c).pausedByFullscreen = c.pausedByFullscreen := by
  unfold settleFire; split_ifs <;> simp <;> (try split_ifs) <;> (try simp)

@[simp] lemma settleFire_shouldAutoStart (now : Int) (c : Carousel) :
    (settleFire now c).shouldAutoStart = c.shouldAutoStart := by
  unfold settleFire; split_ifs <;> simp <;> (try split_ifs) <;> (try simp)

@[simp] lemma settleFire_isInViewport (now : Int) (c : Carousel) :
    (settleFire now c).isInViewport = c.isInViewport := by
  unfold settleFire; split_ifs <;> simp <;> (try split_ifs) <;> (try simp)

@[simp] lemma onFullscreenOpen_slideCount (now : Int) (c : Carousel) :
    (onFullscreenOpen now c).slideCount = c.slideCount := by
  unfold onFullscreenOpen; split_ifs <;> simp <;> (try split_ifs) <;> (try simp)

@[simp] lemma onFullscreenOpen_index (now : Int) (c : Carousel) :
    (onFullscreenOpen now c).index = c.index := by
  unfold onFullscreenOpen; split_ifs <;> simp <;> (try split_ifs) <;> (try simp)

@[simp] lemma onFullscreenOpen_destroyed (now : Int) (c : Carousel) :
    (onFullscreenOpen now c).destroyed = c.destroyed := by
  unfold onFullscreenOpen; split_ifs <;> simp <;> (try split_ifs) <;> (try simp)

@[simp] lemma onFullscreenOpen_initialized (now : Int) (c : Carousel) :
    (onFullscreenOpen now c).initialized = c.initialized := by
  unfold onFullscreenOpen; split_ifs <;> simp <;> (try split_ifs) <;> (try simp)

@[simp] lemma onFullscreenOpen_viewportPaused (now : Int) (c : Carousel) :
    (onFullscreenOpen now c).viewportPaused = c.viewportPaused := by
  unfold onFullscreenOpen; split_ifs <;> simp <;> (try split_ifs) <;> (try simp)

@[simp] lemma onFullscreenOpen_isInViewport (now : Int) (c : Carousel) :
    (onFullscreenOpen now c).isInViewport = c.isInViewport := by
  unfold onFullscreenOpen; split_ifs <;> simp <;> (try split_ifs) <;> (try simp)

@[simp] lemma onFullscreenClose_slideCount (now : Int) (c : Carousel) :
    (onFullscreenClose now c).slideCount = c.slideCount := by
  unfold onFullscreenClose; split_ifs <;> simp <;> (try split_ifs) <;> (try simp)

@[simp] lemma onFullscreenClose_index (now : Int) (c : Carousel) :
    (onFullscreenClose now c).index = c.index := by
  unfold onFullscreenClose; split_ifs <;> simp <;> (try split_ifs) <;> (try simp)

@[simp] lemma onFullscreenClose_destroyed (now : Int) (c : Carousel) :
    (onFullscreenClose now c).destroyed = c.destroyed := by
  unfold onFullscreenClose; split_ifs <;> simp <;> (try split_ifs) <;> (try simp)

@[simp] lemma onFullscreenClose_initialized (now : Int) (c : Carousel) :
    (onFullscreenClose now c).initialized = c.initialized := by
  unfold onFullscreenClose; split_ifs <;> simp <;> (try split_ifs) <;> (try simp)

@[simp] lemma onFullscreenClose_viewportPaused (now : Int) (c : Carousel) :
    (onFullscreenClose now c).viewportPaused = c.viewportPaused := by
  unfold onFullscreenClose; split_ifs <;> simp <;> (try split_ifs) <;> (try simp)

@[simp] lemma onFullscreenClose_isInViewport (now : Int) (c : Carousel) :
    (onFullscreenClose now c).isInViewport = c.isInViewport := by
  unfold onFullscreenClose; split_ifs <;> simp <;> (try split_ifs) <;> (try simp)

@[simp] lemma onFullscreenClose_pausedByFullscreen (now : Int) (c : Carousel)
    (hd : c.destroyed = false) :
    (onFullscreenClose now c).pausedByFullscreen = false := by
  unfold onFullscreenClose; split_ifs <;> simp_all <;> (try split_ifs) <;> (try simp_all)

@[simp] lemma initInstance_slideCount (now : Int) (c : Carousel) :
    (initInstance now c).slideCount = c.slideCount := by
  unfold initInstance; split_ifs <;> simp <;> (try split_ifs) <;> (try simp)

@[simp] lemma initInstance_destroyed (now : Int) (c : Carousel) :
    (initInstance now c).destroyed = c.destroyed := by
  unfold initInstance; split_ifs <;> simp <;> (try split_ifs) <;> (try simp)

lemma initInstance_initialized (now : Int) (c : Carousel)
    (hd : c.destroyed = false) :
    (initInstance now c).initialized = true := by
  unfold initInstance; split_ifs <;> simp_all <;> (try split_ifs) <;> (try simp_all)

@[simp] lemma initInstance_paused (now : Int) (c : Carousel) :
    (initInstance now c).paused = c.paused := by
  unfold initInstance; split_ifs <;> simp <;> (try split_ifs) <;> (try simp)

@[simp] lemma initInstance_viewportPaused (now : Int) (c : Carousel) :
    (initInstance now c).viewportPaused = c.viewportPaused := by
  unfold initInstance; split_ifs <;> simp <;> (try split_ifs) <;> (try simp)

@[simp] lemma initInstance_pausedByFullscreen (now : Int) (c : Carousel) :
    (initInstance now c).pausedByFullscreen = c.pausedByFullscreen := by
  unfold initInstance; split_ifs <;> simp <;> (try split_ifs) <;> (try simp)

@[simp] lemma advanceBody_slideCount (now : Int) (c : Carousel) :
    (advanceBody now c).slideCount = c.slideCount := by
  unfold advanceBody; simp

@[simp] lemma advanceBody_destroyed (now : Int) (c : Carousel) :
    (advanceBody now c).destroyed = c.destroyed := by
  unfold advanceBody; simp

@[simp] lemma advanceBody_initialized (now : Int) (c : Carousel) :
    (advanceBody now c).initialized = c.initialized := by
  unfold advanceBody; simp

@[simp] lemma advanceBody_paused (now : Int) (c : Carousel) :
    (advanceBody now c).paused = c.paused := by
  unfold advanceBody; simp

@[simp] lemma advanceBody_viewportPaused (now : Int) (c : Carousel) :
    (advanceBody now c).viewportPaused = c.viewportPaused := by
  unfold advanceBody; simp

@[simp] lemma advanceBody_pausedByFullscreen (now : Int) (c : Carousel) :
    (advanceBody now c).pausedByFullscreen = c.pausedByFullscreen := by
  unfold advanceBody; simp

@[simp] lemma advanceBody_shouldAutoStart (now : Int) (c : Carousel) :
    (advanceBody now c).shouldAutoStart = c.shouldAutoStart := by
  unfold advanceBody; simp

@[simp] lemma advanceBody_isInViewport (now : Int) (c : Carousel) :
    (advanceBody now c).isInViewport = c.isInViewport := by
  unfold advanceBody; simp

@[simp] lemma advanceFire_slideCount (now : Int) (c : Carousel) :
    (advanceFire now c).slideCount = c.slideCount := by
  unfold advanceFire; split_ifs <;> simp

@[simp] lemma advanceFire_destroyed (now : Int) (c : Carousel) :
    (advanceFire now c).destroyed = c.destroyed := by
  unfold advanceFire; split_ifs <;> simp

@[simp] lemma advanceFire_initialized (now : Int) (c : Carousel) :
    (advanceFire now c).initialized = c.initialized := by
  unfold advanceFire; split_ifs <;> simp

@[simp] lemma advanceFire_paused (now : Int) (c : Carousel) :
    (advanceFire now c).paused = c.paused := by
  unfold advanceFire; split_ifs <;> simp

@[simp] lemma advanceFire_viewportPaused (now : Int) (c : Carousel) :
    (advanceFire now c).viewportPaused = c.viewportPaused := by
  unfold advanceFire; split_ifs <;> simp

@[simp] lemma advanceFire_pausedByFullscreen (now : Int) (c : Carousel) :
    (advanceFire now c).pausedByFullscreen = c.pausedByFullscreen := by
  unfold advanceFire; split_ifs <;> simp

@[simp] lemma fireTransitionEnd_slideCount (now : Int) (c : Carousel) :
    (fireTransitionEnd now c).slideCount = c.slideCount := by
  unfold fireTransitionEnd; split_ifs <;> simp

@[simp] lemma fireTransitionEnd_destroyed (now : Int) (c : Carousel) :
    (fireTransitionEnd now c).destroyed = c.destroyed := by
  unfold fireTransitionEnd; split_ifs <;> simp

@[simp] lemma fireFallback_slideCount (now : Int) (c : Carousel) :
    (fireFallback now c).slideCount = c.slideCount := by
  unfold fireFallback; split_ifs <;> simp

@[simp] lemma fireFallback_destroyed (now : Int) (c : Carousel) :
    (fireFallback now c).destroyed = c.destroyed := by
  unfold fireFallback; split_ifs <;> simp

@[simp] lemma nextSlide_slideCount (now : Int) (c : Carousel) :
    (nextSlide now c).slideCount = c.slideCount := by
  unfold nextSlide; split_ifs <;> simp

@[simp] lemma nextSlide_destroyed (now : Int) (c : Carousel) :
    (nextSlide now c).destroyed = c.destroyed := by
  unfold nextSlide; split_ifs <;> simp

@[simp] lemma nextSlide_paused (now : Int) (c : Carousel) :
    (nextSlide now c).paused = c.paused := by
  unfold nextSlide; split_ifs <;> simp

@[simp] lemma nextSlide_viewportPaused (now : Int) (c : Carousel) :
    (nextSlide now c).viewportPaused = c.viewportPaused := by
  unfold nextSlide; split_ifs <;> simp

@[simp] lemma prevSlide_slideCount (now : Int) (c : Carousel) :
    (prevSlide now c).slideCount = c.slideCount := by
  unfold prevSlide; split_ifs <;> simp

@[simp] lemma prevSlide_destroyed (now : Int) (c : Carousel) :
    (prevSlide now c).destroyed = c.destroyed := by
  unfold prevSlide; split_ifs <;> simp

@[simp] lemma prevSlide_paused (now : Int) (c : Carousel) :
    (prevSlide now c).paused = c.paused := by
  unfold prevSlide; split_ifs <;> simp

@[simp] lemma prevSlide_viewportPaused (now : Int) (c : Carousel) :
    (prevSlide now c).viewportPaused = c.viewportPaused := by
  unfold prevSlide; split_ifs <;> simp

@[simp] lemma nextBtnClick_slideCount (now : Int) (c : Carousel) :
    (nextBtnClick now c).slideCount = c.slideCount := by
  unfold nextBtnClick; split_ifs <;> simp <;> (try split_ifs) <;> (try simp)

@[simp] lemma nextBtnClick_destroyed (now : Int) (c : Carousel) :
    (nextBtnClick now c).destroyed = c.destroyed := by
  unfold nextBtnClick; split_ifs <;> simp <;> (try split_ifs) <;> (try simp)

@[simp] lemma prevBtnClick_slideCount (now : Int) (c : Carousel) :
    (prevBtnClick now c).slideCount = c.slideCount := by
  unfold prevBtnClick; split_ifs <;> simp <;> (try split_ifs) <;> (try simp)

@[simp] lemma prevBtnClick_destroyed (now : Int) (c : Carousel) :
    (prevBtnClick now c).destroyed = c.destroyed := by
  unfold prevBtnClick; split_ifs <;> simp <;> (try split_ifs) <;> (try simp)

@[simp] lemma dotClick_slideCount (idx : Nat) (now : Int) (c : Carousel) :
    (dotClick idx now c).slideCount = c.slideCount := by
  unfold dotClick; split_ifs <;> simp <;> (try split_ifs) <;> (try simp)

@[simp] lemma dotClick_destroyed (idx : Nat) (now : Int) (c : Carousel) :
    (dotClick idx now c).destroyed = c.destroyed := by
  unfold dotClick; split_ifs <;> simp <;> (try split_ifs) <;> (try simp)

@[simp] lemma cleanup_slideCount (c : Carousel) :
    (cleanup c).slideCount = c.slideCount := by
  unfold cleanup; split_ifs <;> simp

lemma cleanup_destroyed (c : Carousel) : (cleanup c).destroyed = true := by
  unfold cleanup; split_ifs <;> simp_all

/-! ### Index characterization lemmas -/

lemma setActive_index_reset (i : Int) (c : Carousel) (hd : c.destroyed = false) :
    (setActive i true c).index = (i + c.slideCount).tmod c.slideCount := by
  unfold setActive; simp [hd]

lemma nextSlide_index (now : Int) (c : Carousel) (hd : c.destroyed = false) :
    (nextSlide now c).index = (c.index + 1 + c.slideCount).tmod c.slideCount := by
  unfold nextSlide
  rw [if_neg (by simp [hd])]
  have h1 : (completeProgressReset now c).destroyed = false := by simp [hd]
  rw [setActive_index_reset _ _ h1]
  simp

lemma prevSlide_index (now : Int) (c : Carousel) (hd : c.destroyed = false) :
    (prevSlide now c).index = (c.index - 1 + c.slideCount).tmod c.slideCount := by
  unfold prevSlide
  rw [if_neg (by simp [hd])]
  have h1 : (completeProgressReset now c).destroyed = false := by simp [hd]
  rw [setActive_index_reset _ _ h1]
  simp

lemma setActive_index_ite (i : Int) (c : Carousel) :
    (setActive i true c).index
      = if c.destroyed = true then c.index
        else (i + c.slideCount).tmod c.slideCount := by
  unfold setActive; split_ifs <;> simp_all

lemma advanceBody_index (now : Int) (c : Carousel) (hd : c.destroyed = false) :
    (advanceBody now c).index = (c.index + 1 + c.slideCount).tmod c.slideCount := by
  unfold advanceBody
  simp only [startAuto_index, setActive_index_ite]
  simp [hd]

lemma nextBtnClick_index (now : Int) (c : Carousel) :
    (nextBtnClick now c).index = (nextSlide now c).index := by
  unfold nextBtnClick
  split_ifs with h
  · simp [nextSlide, h]
  · simp
    split_ifs <;> simp

lemma prevBtnClick_index (now : Int) (c : Carousel) :
    (prevBtnClick now c).index = (prevSlide now c).index := by
  unfold prevBtnClick
  split_ifs with h
  · simp [prevSlide, h]
  · simp
    split_ifs <;> simp

lemma dotClick_index (idx : Nat) (now : Int) (c : Carousel) (hd : c.destroyed = false) :
    (dotClick idx now c).index = ((idx : Int) + c.slideCount).tmod c.slideCount := by
  unfold dotClick
  rw [if_neg (by simp [hd])]
  have h1 : (completeProgressReset now c).destroyed = false := by simp [hd]
  have h2 := setActive_index_reset (idx : Int) (completeProgressReset now c) h1
  simp only [completeProgressReset_slideCount] at h2
  simp
  split_ifs <;> simp [h2]

lemma cleanup_index (c : Carousel) :
    (cleanup c).index = if c.destroyed = true then c.index else 0 := by
  unfold cleanup; split_ifs <;> rfl

/-- `slideCount` (the DOM slide list) is fixed for the life of an instance. -/
lemma applyOp_slideCount (op : Op) (now : Int) (c : Carousel) :
    (applyOp op now c).slideCount = c.slideCount := by
  cases op <;> simp [applyOp]

/-- Every public operation keeps `index` inside `[0, slideCount)`. -/
lemma applyOp_index_range (op : Op) (now : Int) (c : Carousel)
    (hn : 0 < c.slideCount) (h0 : 0 ≤ c.index) (h1 : c.index < (c.slideCount : Int)) :
    0 ≤ (applyOp op now c).index ∧ (applyOp op now c).index < (c.slideCount : Int) := by
  have hnz : (0:Int) < (c.slideCount : Int) := by exact_mod_cast hn
  cases op with
  | nextBtn =>
    simp only [applyOp, nextBtnClick_index]
    by_cases hdc : c.destroyed = true
    · simp only [nextSlide, if_pos hdc]; exact ⟨h0, h1⟩
    · rw [nextSlide_index now c (by simpa using hdc)]
      exact tmod_range (by omega) hnz
  | prevBtn =>
    simp only [applyOp, prevBtnClick_index]
    by_cases hdc : c.destroyed = true
    · simp only [prevSlide, if_pos hdc]; exact ⟨h0, h1⟩
    · rw [prevSlide_index now c (by simpa using hdc)]
      exact tmod_range (by omega) hnz
  | dot idx =>
    simp only [applyOp]
    by_cases hdc : c.destroyed = true
    · simp only [dotClick, if_pos hdc]; exact ⟨h0, h1⟩
    · rw [dotClick_index idx now c (by simpa using hdc)]
      exact tmod_range (by omega) hnz
  | pauseManual => simp only [applyOp, pauseAutoplay_index]; exact ⟨h0, h1⟩
  | resumeManual => simp only [applyOp, resumeAutoplay_index]; exact ⟨h0, h1⟩
  | pauseViewport => simp only [applyOp, pauseForViewport_index]; exact ⟨h0, h1⟩
  | resumeViewport =>
    simp only [applyOp, resumeFromViewportPause_index]; exact ⟨h0, h1⟩
  | fsOpen => simp only [applyOp, onFullscreenOpen_index]; exact ⟨h0, h1⟩
  | fsClose => simp only [applyOp, onFullscreenClose_index]; exact ⟨h0, h1⟩
  | doInit =>
    simp only [applyOp]
    by_cases hdc : c.destroyed = true
    · simp only [initInstance, if_pos (Or.inl hdc)]; exact ⟨h0, h1⟩
    · by_cases hic : c.initialized = true
      · simp only [initInstance, if_pos (Or.inr hic)]; exact ⟨h0, h1⟩
      · have hne : c.slideCount ≠ 0 := by omega
        unfold initInstance
        rw [if_neg (by simp [hdc, hic])]
        simp [apply_ite Carousel.index, setActive_index_ite, hdc, hne]
        exact hn
  | settle => simp only [applyOp, settleFire_index]; exact ⟨h0, h1⟩
  | transEnd =>
    simp only [applyOp, fireTransitionEnd]
    split_ifs with h
    · unfold advanceFire
      split_ifs with h2 h3
      · exact ⟨h0, h1⟩
      · exact ⟨h0, h1⟩
      · have hdc : c.destroyed = false := by
          simp only [not_or, Bool.not_eq_true] at h3; exact h3.2.1
        rw [advanceBody_index now c hdc]
        exact tmod_range (by omega) hnz
    · exact ⟨h0, h1⟩
  | fallback =>
    simp only [applyOp, fireFallback]
    split_ifs with h h2
    · unfold advanceFire
      split_ifs with h3 h4
      · exact ⟨h0, h1⟩
      · exact ⟨h0, h1⟩
      · have hdc : c.destroyed = false := by
          simp only [not_or, Bool.not_eq_true] at h4; exact h4.2.1
        rw [advanceBody_index now c hdc]
        exact tmod_range (by omega) hnz
    · exact ⟨h0, h1⟩
    · exact ⟨h0, h1⟩
  | teardown =>
    simp only [applyOp, cleanup_index]
    split_ifs
    · exact ⟨h0, h1⟩
    · exact ⟨le_refl 0, hnz⟩

/-- C7: for every `slideCount ≥ 1` and every in-range index, `next` from the
last slide wraps to 0 and `prev` from slide 0 wraps to the last slide
(`setActive` computes `(i + slides.length) % slides.length`); in general every
public operation keeps `activeIndex` inside `[0, slideCount)`. -/
theorem activeIndex_wraparound (c : Carousel) (now : Int)
    (hn : 0 < c.slideCount) (hd : c.destroyed = false)
    (h0 : 0 ≤ c.index) (h1 : c.index < (c.slideCount : Int)) :
    (c.index = (c.slideCount : Int) - 1 → (nextSlide now c).index = 0) ∧
    (c.index = 0 → (prevSlide now c).index = (c.slideCount : Int) - 1) ∧
    (∀ (op : Op) (t : Int), 0 ≤ (applyOp op t c).index ∧
        (applyOp op t c).index < ((applyOp op t c).slideCount : Int)) := by
  have hnz : (0:Int) < (c.slideCount : Int) := by exact_mod_cast hn
  refine ⟨?_, ?_, ?_⟩
  · intro hlast
    rw [nextSlide_index now c hd]
    have h2 : c.index + 1 + (c.slideCount : Int) = (c.slideCount : Int) * 2 := by omega
    rw [h2, Int.tmod_eq_emod (by positivity) (by positivity), Int.mul_emod_right]
  · intro hfirst
    rw [prevSlide_index now c hd]
    have h2 : c.index - 1 + (c.slideCount : Int) = (c.slideCount : Int) - 1 := by
      omega
    rw [h2, Int.tmod_eq_emod (by omega) (by omega),
        Int.emod_eq_of_lt (by omega) (by omega)]
  · intro op t
    have h3 := applyOp_index_range op t c hn h0 h1
    rwa [applyOp_slideCount]

/-- Witness for C7: a concrete 4-slide instance moved to its last slide wraps
to slide 0 on `next`, and a fresh one wraps to slide 3 on `prev`. -/
theorem activeIndex_wraparound_witness :
    (nextSlide 200 (dotClick 3 150 playState)).index = 0 ∧
    (prevSlide 200 playState).index = 3 := by
  have hA := activeIndex_wraparound (dotClick 3 150 playState) 200
    (by decide) (by decide) (by decide) (by decide)
  have hB := activeIndex_wraparound playState 200
    (by decide) (by decide) (by decide) (by decide)
  exact ⟨hA.1 (by decide), hB.2.1 (by decide)⟩

/-- C10: whenever autoplay is started or resumed, the transition scheduled
until the next auto-advance lasts `max(16, intervalMs - pauseElapsed)` ms
(`startAutoRemaining`), hence at least 16 ms, even when the recorded elapsed
time equals the full interval — a resume never produces a zero or negative
delay. -/
theorem startAuto_remaining_floor (c : Carousel) (now : Int)
    (hd : c.destroyed = false) (hv : c.viewportPaused = false) :
    (startAuto now c).fillDur = startAutoRemaining c.pauseElapsed ∧
    16 ≤ (startAuto now c).fillDur ∧
    (startAuto now c).timer = true ∧
    (c.pauseElapsed = intervalMs → (startAuto now c).fillDur = 16) ∧
    (∀ pe : Int, 16 ≤ startAutoRemaining pe) := by
  have h1 := startAuto_fillDur_eq now c hd hv
  refine ⟨h1, ?_, startAuto_timer_on now c hd hv, ?_, ?_⟩
  · rw [h1]; exact le_max_left _ _
  · intro he
    rw [h1, he]
    norm_num [startAutoRemaining, intervalMs]
  · intro pe; exact le_max_left _ _

/-- Witness for C10: an instance paused a full interval in restarts with a
16 ms transition, not an immediate advance. -/
theorem startAuto_remaining_floor_witness :
    (startAuto 99999 (pauseAutoplay 99999 playState)).fillDur
      = startAutoRemaining (pauseAutoplay 99999 playState).pauseElapsed ∧
    16 ≤ (startAuto 99999 (pauseAutoplay 99999 playState)).fillDur ∧
    (startAuto 99999 (pauseAutoplay 99999 playState)).timer = true ∧
    (startAuto 99999 (pauseAutoplay 99999 playState)).fillDur = 16 := by
  have h := startAuto_remaining_floor (pauseAutoplay 99999 playState) 99999
    (by decide) (by decide)
  exact ⟨h.1, h.2.1, h.2.2.1, h.2.2.2.1 (by decide)⟩

/-- The fullscreen lightbox state: `currentImages`, `currentIndex` and
`originalCarousel` of `initializeFullscreenModal` (script.js:3195-3197).
Only the length of `currentImages` matters for navigation. -/
structure FullscreenModal where
  /-- `currentImages.length` -/
  imageCount : Nat
  /-- `let currentIndex = 0` -/
  currentIndex : Int
  /-- `let originalCarousel = null` : the owning carousel's state, if any. -/
  owner : Option Carousel
  deriving Repr, DecidableEq

/-- `nextImage` (script.js:3256-3261):
`currentIndex = (currentIndex + 1) % currentImages.length` when more than one
image exists. -/
def nextImage (m : FullscreenModal) : FullscreenModal :=
  if 1 < m.imageCount then
    { m with currentIndex := (m.currentIndex + 1).tmod m.imageCount }
  else m

/-- `prevImage` (script.js:3263-3270):
`currentIndex = (currentIndex - 1 + currentImages.length) % currentImages.length`
when more than one image exists. -/
def prevImage (m : FullscreenModal) : FullscreenModal :=
  if 1 < m.imageCount then
    { m with currentIndex := (m.currentIndex - 1 + m.imageCount).tmod m.imageCount }
  else m

/-- C9: the lightbox's internal next/prev navigation only moves its own
image index (modulo the image-list length); the owning carousel's state —
in particular `activeIndex` via `getCurrentIndex` — is left untouched, so the
two indices evolve independently. -/
theorem lightbox_nav_frame (m : FullscreenModal)
    (h0 : 0 ≤ m.currentIndex) (h1 : m.currentIndex < (m.imageCount : Int)) :
    (nextImage m).owner = m.owner ∧
    (prevImage m).owner = m.owner ∧
    (nextImage m).imageCount = m.imageCount ∧
    (prevImage m).imageCount = m.imageCount ∧
    (1 < m.imageCount →
      (nextImage m).currentIndex = (m.currentIndex + 1).tmod m.imageCount) ∧
    (1 < m.imageCount →
      (prevImage m).currentIndex
        = (m.currentIndex - 1 + m.imageCount).tmod m.imageCount) ∧
    (0 ≤ (nextImage m).currentIndex ∧
      (nextImage m).currentIndex < (m.imageCount : Int)) ∧
    (0 ≤ (prevImage m).currentIndex ∧
      (prevImage m).currentIndex < (m.imageCount : Int)) := by
  refine ⟨?_, ?_, ?_, ?_, ?_, ?_, ?_, ?_⟩
  · unfold nextImage; split_ifs <;> rfl
  · unfold prevImage; split_ifs <;> rfl
  · unfold nextImage; split_ifs <;> rfl
  · unfold prevImage; split_ifs <;> rfl
  · intro h; unfold nextImage; rw [if_pos h]
  · intro h; unfold prevImage; rw [if_pos h]
  · unfold nextImage
    split_ifs with h
    · have hnz : (0:Int) < (m.imageCount : Int) := by exact_mod_cast
        (Nat.lt_of_lt_of_le Nat.zero_lt_one (le_of_lt h))
      exact tmod_range (by omega) hnz
    · exact ⟨h0, h1⟩
  · unfold prevImage
    split_ifs with h
    · have h2 : (2:Int) ≤ (m.imageCount : Int) := by exact_mod_cast h
      have hnz : (0:Int) < (m.imageCount : Int) := by omega
      exact tmod_range (by omega) hnz
    · exact ⟨h0, h1⟩

/-- Witness for C9: a 5-image lightbox owned by a live carousel advances
2 → 3 and retreats 2 → 1 without touching the owner. -/
theorem lightbox_nav_frame_witness :
    (nextImage ⟨5, 2, some playState⟩).owner = some playState ∧
    (prevImage ⟨5, 2, some playState⟩).owner = some playState ∧
    (nextImage ⟨5, 2, some playState⟩).currentIndex = 3 ∧
    (prevImage ⟨5, 2, some playState⟩).currentIndex = 1 := by
  have h := lightbox_nav_frame ⟨5, 2, some playState⟩ (by decide) (by decide)
  refine ⟨h.1, h.2.1, ?_, ?_⟩
  · rw [h.2.2.2.2.1 (by decide)]; decide
  · rw [h.2.2.2.2.2.1 (by decide)]; decide

/-- One autoplay cycle as set up by a single `startAuto` invocation:
`advanced` is that invocation's local one-shot guard (script.js:2087), `car`
the shared closure state.  `cycleTrigger` is the cycle's `advance(source)`
(script.js:2088-2131) as reached from either the transitionend path
(script.js:2135-2146) or the fallback timeout path (script.js:2150-2158);
the guard of the old cycle stays `true` even though `startAuto` inside the
advance creates a fresh cycle with its own guard. -/
structure AutoplayCycle where
  advanced : Bool
  car : Carousel
  deriving Repr, DecidableEq

/-- `advance(source)` of one fixed cycle: one-shot guard, pause/destroy
re-check, then the advance body. -/
def cycleTrigger (now : Int) (cy : AutoplayCycle) : AutoplayCycle :=
  if cy.advanced then cy
  else if cy.car.viewportPaused ∨ cy.car.destroyed ∨ cy.car.paused then cy
  else { advanced := true, car := advanceBody now cy.car }

/-- C2: for a cycle started with `remaining = R = startAutoRemaining pe`
(transition completes R after start, fallback fires `R + guardMargin` after
start, so both triggers lie in `[R, R + guardMargin]`), the first trigger
advances the slide index by exactly one and sets the one-shot guard; a second
trigger of the same cycle — whichever of the two paths it is — is a complete
no-op, so each cycle advances the index exactly once. -/
theorem autoplay_single_advance_per_cycle (cy : AutoplayCycle) (t1 t2 : Int)
    (hg : cy.advanced = false) (hv : cy.car.viewportPaused = false)
    (hd : cy.car.destroyed = false) (hp : cy.car.paused = false) :
    (cycleTrigger t1 cy).advanced = true ∧
    (cycleTrigger t1 cy).car.index
      = (cy.car.index + 1 + cy.car.slideCount).tmod cy.car.slideCount ∧
    cycleTrigger t2 (cycleTrigger t1 cy) = cycleTrigger t1 cy ∧
    (cycleTrigger t2 (cycleTrigger t1 cy)).car.index
      = (cycleTrigger t1 cy).car.index ∧
    startAutoRemaining cy.car.pauseElapsed
      ≤ startAutoRemaining cy.car.pauseElapsed + guardMargin := by
  have hstep : cycleTrigger t1 cy
      = { advanced := true, car := advanceBody t1 cy.car } := by
    unfold cycleTrigger
    rw [if_neg (by simp [hg]), if_neg (by simp [hv, hd, hp])]
  have hsecond : cycleTrigger t2 (cycleTrigger t1 cy) = cycleTrigger t1 cy := by
    rw [hstep]
    unfold cycleTrigger
    rw [if_pos rfl]
  refine ⟨by rw [hstep], ?_, hsecond, by rw [hsecond], ?_⟩
  · rw [hstep]
    exact advanceBody_index t1 cy.car hd
  · have hgm : (0:Int) ≤ guardMargin := by norm_num [guardMargin]
    omega

/-- Witness for C2: on the running 4-slide instance, the first trigger moves
slide 0 to slide 1 and the second trigger of the same cycle changes
nothing. -/
theorem autoplay_single_advance_per_cycle_witness :
    (cycleTrigger 5100 ⟨false, playState⟩).car.index = 1 ∧
    (cycleTrigger 5100 ⟨false, playState⟩).advanced = true ∧
    cycleTrigger 5300 (cycleTrigger 5100 ⟨false, playState⟩)
      = cycleTrigger 5100 ⟨false, playState⟩ := by
  have h := autoplay_single_advance_per_cycle ⟨false, playState⟩ 5100 5300
    (by decide) (by decide) (by decide) (by decide)
  refine ⟨?_, h.1, h.2.2.1⟩
  rw [h.2.1]; decide

/-- C3: opening the fullscreen overlay over a never-initialized owner does
not start anything; a later `initialize` (first viewport entry) records the
owed auto-start in the owner's own `shouldAutoStart`/`paused` flags but
neither runs nor schedules autoplay; only `onFullscreenClose` finally starts
the timer. -/
theorem fullscreen_before_visibility (n : Nat) (t1 t2 t3 : Int) (hn : 0 < n) :
    ((onFullscreenOpen t1 (mkCarousel n)).timer = false ∧
     (onFullscreenOpen t1 (mkCarousel n)).paused = true ∧
     (onFullscreenOpen t1 (mkCarousel n)).shouldAutoStart = true ∧
     (onFullscreenOpen t1 (mkCarousel n)).pausedByFullscreen = true ∧
     (onFullscreenOpen t1 (mkCarousel n)).initialized = false) ∧
    ((initInstance t2 (onFullscreenOpen t1 (mkCarousel n))).timer = false ∧
     (initInstance t2 (onFullscreenOpen t1 (mkCarousel n))).initTimerPending = false ∧
     (initInstance t2 (onFullscreenOpen t1 (mkCarousel n))).initialized = true ∧
     (initInstance t2 (onFullscreenOpen t1 (mkCarousel n))).shouldAutoStart = true ∧
     (initInstance t2 (onFullscreenOpen t1 (mkCarousel n))).pausedByFullscreen = true) ∧
    ((onFullscreenClose t3 (initInstance t2 (onFullscreenOpen t1 (mkCarousel n)))).timer = true ∧
     (onFullscreenClose t3 (initInstance t2 (onFullscreenOpen t1 (mkCarousel n)))).pausedByFullscreen = false) := by
  have hne : n ≠ 0 := by omega
  refine ⟨⟨?_, ?_, ?_, ?_, ?_⟩, ⟨?_, ?_, ?_, ?_, ?_⟩, ⟨?_, ?_⟩⟩ <;>
    simp [onFullscreenOpen, onFullscreenClose, initInstance, mkCarousel,
          completeProgressReset, stopAuto, setActive, startAuto, pauseAutoplay,
          renderedFill, hne]

/-- Witness for C3 on a 3-slide gallery. -/
theorem fullscreen_before_visibility_witness :
    (initInstance 50 (onFullscreenOpen 0 (mkCarousel 3))).timer = false ∧
    (initInstance 50 (onFullscreenOpen 0 (mkCarousel 3))).shouldAutoStart = true ∧
    (onFullscreenClose 900 (initInstance 50 (onFullscreenOpen 0 (mkCarousel 3)))).timer = true := by
  have h := fullscreen_before_visibility 3 0 50 900 (by decide)
  exact ⟨h.2.1.1, h.2.1.2.2.2.1, h.2.2.1⟩

lemma clamp01_eq_self {q : ℚ} (h0 : 0 ≤ q) (h1 : q ≤ 1) : clamp01 q = q := by
  unfold clamp01
  rw [min_eq_right h1, max_eq_right h0]

lemma clampElapsed_eq_self {e : Int} (h0 : 0 ≤ e) (h1 : e ≤ intervalMs) :
    clampElapsed e = e := by
  unfold clampElapsed intervalMs at *
  omega

/-- `pauseForViewport` on a running, unpaused instance records the clamped
elapsed time and pins the fill at the matching fraction. -/
lemma pauseForViewport_acts (now : Int) (c : Carousel)
    (hd : c.destroyed = false) (hv : c.viewportPaused = false)
    (ht : c.timer = true) (hp : c.paused = false) :
    (pauseForViewport now c).pauseElapsed = clampElapsed (now - c.startTs) ∧
    (pauseForViewport now c).fillPct
      = clamp01 ((clampElapsed (now - c.startTs) : ℚ) / ((intervalMs : Int) : ℚ)) ∧
    (pauseForViewport now c).fillDur = 0 ∧
    (pauseForViewport now c).timer = false := by
  unfold pauseForViewport
  rw [if_neg (by simp [hd, hv])]
  simp [ht, hp, stopAuto, hd]

/-- `resumeFromViewportPause` with no other pause source active reduces to
`startAuto` on the viewport-cleared state. -/
lemma resumeFromViewportPause_acts (now : Int) (c : Carousel)
    (hd : c.destroyed = false) (hfs : c.pausedByFullscreen = false)
    (hsas : c.shouldAutoStart = false) (hp : c.paused = false) :
    resumeFromViewportPause now c
      = startAuto now { c with viewportPaused := false, isInViewport := true } := by
  unfold resumeFromViewportPause
  rw [if_neg (by simp [hd])]
  simp [hfs, hsas, hp]

/-- C4: a playing instance paused by a viewport exit `e` ms into the interval
freezes the progress fill at `e / intervalMs` of full width and records
`pauseElapsed = e`; a later viewport resume with no other pause source active
restarts the timer with `remaining = startAutoRemaining e`
(`= intervalMs - e` whenever that is at least the 16 ms floor), resuming the
fill from the same fraction instead of a fresh full interval. -/
theorem viewport_pause_freezes_and_resume_restarts
    (c : Carousel) (t0 e tr : Int)
    (hd : c.destroyed = false) (hv : c.viewportPaused = false)
    (hp : c.paused = false) (hfs : c.pausedByFullscreen = false)
    (hsas : c.shouldAutoStart = false) (ht : c.timer = true)
    (hts : c.startTs = t0) (he0 : 0 ≤ e) (he1 : e ≤ intervalMs) :
    (pauseForViewport (t0 + e) c).pauseElapsed = e ∧
    (pauseForViewport (t0 + e) c).fillPct = (e : ℚ) / ((intervalMs : Int) : ℚ) ∧
    (pauseForViewport (t0 + e) c).fillDur = 0 ∧
    (pauseForViewport (t0 + e) c).timer = false ∧
    (resumeFromViewportPause tr (pauseForViewport (t0 + e) c)).timer = true ∧
    (resumeFromViewportPause tr (pauseForViewport (t0 + e) c)).fillDur
      = startAutoRemaining e ∧
    (e ≤ intervalMs - 16 →
      (resumeFromViewportPause tr (pauseForViewport (t0 + e) c)).fillDur
        = intervalMs - e) ∧
    (resumeFromViewportPause tr (pauseForViewport (t0 + e) c)).fillPct
      = (e : ℚ) / ((intervalMs : Int) : ℚ) := by
  have hce : clampElapsed (t0 + e - c.startTs) = e := by
    rw [hts]
    have h2 : t0 + e - t0 = e := by ring
    rw [h2]
    exact clampElapsed_eq_self he0 he1
  have hdpos : (0:ℚ) < ((intervalMs : Int) : ℚ) := by norm_num [intervalMs]
  have hq0 : (0:ℚ) ≤ (e : ℚ) / ((intervalMs : Int) : ℚ) :=
    div_nonneg (by exact_mod_cast he0) (le_of_lt hdpos)
  have hq1 : (e : ℚ) / ((intervalMs : Int) : ℚ) ≤ 1 := by
    rw [div_le_one hdpos]
    exact_mod_cast he1
  have hclampq :
      clamp01 ((e : ℚ) / ((intervalMs : Int) : ℚ))
        = (e : ℚ) / ((intervalMs : Int) : ℚ) := clamp01_eq_self hq0 hq1
  obtain ⟨hp1, hp2, hp3, hp4⟩ := pauseForViewport_acts (t0 + e) c hd hv ht hp
  rw [hce] at hp1 hp2
  rw [hclampq] at hp2
  have hpd : (pauseForViewport (t0 + e) c).destroyed = false := by simp [hd]
  have hpfs : (pauseForViewport (t0 + e) c).pausedByFullscreen = false := by
    simp [hfs]
  have hpsas : (pauseForViewport (t0 + e) c).shouldAutoStart = false := by
    simp [hsas]
  have hpp : (pauseForViewport (t0 + e) c).paused = false := by simp [hp]
  have hres := resumeFromViewportPause_acts tr (pauseForViewport (t0 + e) c)
    hpd hpfs hpsas hpp
  have hrd : ({ pauseForViewport (t0 + e) c with viewportPaused := false, isInViewport := true } : Carousel).destroyed = false := hpd
  have hrv : ({ pauseForViewport (t0 + e) c with viewportPaused := false, isInViewport := true } : Carousel).viewportPaused = false := rfl
  refine ⟨hp1, hp2, hp3, hp4, ?_, ?_, ?_, ?_⟩
  · rw [hres]
    exact startAuto_timer_on _ _ hrd hrv
  · rw [hres, startAuto_fillDur_eq _ _ hrd hrv]
    show startAutoRemaining (pauseForViewport (t0 + e) c).pauseElapsed = _
    rw [hp1]
  · intro hsmall
    rw [hres, startAuto_fillDur_eq _ _ hrd hrv]
    show startAutoRemaining (pauseForViewport (t0 + e) c).pauseElapsed = _
    rw [hp1]
    unfold startAutoRemaining intervalMs at *
    omega
  · rw [hres, startAuto_fillPct_eq _ _ hrd hrv]
    show clamp01 (((pauseForViewport (t0 + e) c).pauseElapsed : ℚ)
      / ((intervalMs : Int) : ℚ)) = _
    rw [hp1, hclampq]

/-- Witness for C4: the scenario of the spec — paused 2000 ms into a 5000 ms
interval the bar freezes at 40 % (2/5), and the resume restarts with
3000 ms remaining, not 5000. -/
theorem viewport_pause_freezes_and_resume_restarts_witness :
    (pauseForViewport 2100 playState).pauseElapsed = 2000 ∧
    (pauseForViewport 2100 playState).fillPct = 2/5 ∧
    (pauseForViewport 2100 playState).timer = false ∧
    (resumeFromViewportPause 12100 (pauseForViewport 2100 playState)).timer = true ∧
    (resumeFromViewportPause 12100 (pauseForViewport 2100 playState)).fillDur = 3000 ∧
    (resumeFromViewportPause 12100 (pauseForViewport 2100 playState)).fillPct = 2/5 := by
  have h := viewport_pause_freezes_and_resume_restarts playState 100 2000 12100
    (by decide) (by decide) (by decide) (by decide) (by decide) (by decide)
    (by decide) (by decide) (by decide)
  norm_num [intervalMs, startAutoRemaining] at h
  exact ⟨h.1, h.2.1, h.2.2.2.1, h.2.2.2.2.1, h.2.2.2.2.2.1, h.2.2.2.2.2.2⟩

/-- Numeric bounds of the claim: elapsed time in `[0, intervalMs]`, progress
fraction in `[0, 1]`. -/
def ProgressBounds (c : Carousel) : Prop :=
  0 ≤ c.pauseElapsed ∧ c.pauseElapsed ≤ intervalMs ∧
  0 ≤ c.fillPct ∧ c.fillPct ≤ 1

lemma clamp01_bounds (q : ℚ) : 0 ≤ clamp01 q ∧ clamp01 q ≤ 1 := by
  unfold clamp01
  constructor
  · exact le_max_left 0 _
  · exact max_le (by norm_num) (min_le_left 1 q)

lemma clampElapsed_bounds (e : Int) :
    0 ≤ clampElapsed e ∧ clampElapsed e ≤ intervalMs := by
  unfold clampElapsed intervalMs
  omega

lemma renderedFill_bounds (now : Int) (c : Carousel)
    (h0 : 0 ≤ c.fillPct) (h1 : c.fillPct ≤ 1) :
    0 ≤ renderedFill now c ∧ renderedFill now c ≤ 1 := by
  unfold renderedFill
  split_ifs
  · exact ⟨h0, h1⟩
  · obtain ⟨hc0, hc1⟩ := clamp01_bounds
      ((((now - c.fillStartTs) : Int) : ℚ) / ((c.fillDur : Int) : ℚ))
    constructor
    · nlinarith
    · nlinarith

lemma stopAuto_bounds (now : Int) (c : Carousel) (h : ProgressBounds c) :
    ProgressBounds (stopAuto now c) := by
  obtain ⟨h1, h2, h3, h4⟩ := h
  unfold stopAuto
  split_ifs
  · exact ⟨h1, h2, h3, h4⟩
  · exact ⟨h1, h2, (renderedFill_bounds now c h3 h4).1,
      (renderedFill_bounds now c h3 h4).2⟩

lemma startAuto_bounds (now : Int) (c : Carousel) (h : ProgressBounds c) :
    ProgressBounds (startAuto now c) := by
  obtain ⟨h1, h2, h3, h4⟩ := h
  by_cases hcond : (c.destroyed = true ∨ c.viewportPaused = true)
  · rw [startAuto_skip now c hcond]; exact ⟨h1, h2, h3, h4⟩
  · have hd : c.destroyed = false := by
      simp only [not_or, Bool.not_eq_true] at hcond; exact hcond.1
    have hv : c.viewportPaused = false := by
      simp only [not_or, Bool.not_eq_true] at hcond; exact hcond.2
    refine ⟨?_, ?_, ?_, ?_⟩
    · rw [startAuto_pauseElapsed]; exact h1
    · rw [startAuto_pauseElapsed]; exact h2
    · rw [startAuto_fillPct_eq now c hd hv]; exact (clamp01_bounds _).1
    · rw [startAuto_fillPct_eq now c hd hv]; exact (clamp01_bounds _).2

lemma setActive_fillPct_cases (i : Int) (b : Bool) (c : Carousel) :
    (setActive i b c).fillPct = c.fillPct ∨ (setActive i b c).fillPct = 0 := by
  by_cases hd : c.destroyed = true
  · left; simp [setActive, hd]
  · unfold setActive
    rw [if_neg (by simp [hd])]
    by_cases hb : b = true
    · subst hb
      rw [if_neg (by simp)]
      right; simp
    · have hb0 : b = false := by simpa using hb
      subst hb0
      by_cases heq : (i + (c.slideCount : Int)).tmod (c.slideCount : Int) = c.index
      · left; rw [if_pos (by simp [heq])]
      · left; rw [if_neg (by simp [heq])]; simp

lemma setActive_bounds (i : Int) (b : Bool) (c : Carousel)
    (h : ProgressBounds c) : ProgressBounds (setActive i b c) := by
  obtain ⟨h1, h2, h3, h4⟩ := h
  have hpe := setActive_pauseElapsed i b c
  rcases setActive_fillPct_cases i b c with he | he <;>
    exact ⟨by simp [hpe, h1], by simp [hpe, h2], by simp [he, h3],
      by simp [he, h4]⟩

lemma completeProgressReset_bounds (now : Int) (c : Carousel)
    (h : ProgressBounds c) : ProgressBounds (completeProgressReset now c) := by
  obtain ⟨h1, h2, h3, h4⟩ := h
  unfold completeProgressReset
  split_ifs
  · exact ⟨h1, h2, h3, h4⟩
  · exact ⟨le_refl 0, by norm_num [intervalMs], le_refl 0, by norm_num⟩

lemma resetProgressBar_bounds (c : Carousel) (h : ProgressBounds c) :
    ProgressBounds (resetProgressBar c) := by
  obtain ⟨h1, h2, h3, h4⟩ := h
  unfold resetProgressBar
  split_ifs
  · exact ⟨h1, h2, h3, h4⟩
  · exact ⟨h1, h2, le_refl 0, by norm_num⟩

lemma advanceBody_bounds (now : Int) (c : Carousel) (h : ProgressBounds c) :
    ProgressBounds (advanceBody now c) := by
  obtain ⟨h1, h2, h3, h4⟩ := h
  exact startAuto_bounds _ _ (setActive_bounds _ _ _
    ⟨le_refl 0, by norm_num [intervalMs], h3, h4⟩)

lemma advanceFire_bounds (now : Int) (c : Carousel) (h : ProgressBounds c) :
    ProgressBounds (advanceFire now c) := by
  unfold advanceFire
  split_ifs
  · exact h
  · exact h
  · exact advanceBody_bounds now c h

lemma setActive_reset_fillPct (i : Int) (c : Carousel) (hd : c.destroyed = false) :
    (setActive i true c).fillPct = 0 := by
  unfold setActive
  rw [if_neg (by simp [hd]), if_neg (by simp)]
  simp

lemma completeProgressReset_pe_fill (now : Int) (c : Carousel)
    (hd : c.destroyed = false) :
    (completeProgressReset now c).pauseElapsed = 0 ∧
    (completeProgressReset now c).fillPct = 0 := by
  unfold completeProgressReset
  rw [if_neg (by simp [hd])]
  exact ⟨rfl, rfl⟩

set_option maxHeartbeats 1000000 in
lemma pauseAutoplay_bounds (now : Int) (c : Carousel) (h : ProgressBounds c) :
    ProgressBounds (pauseAutoplay now c) := by
  obtain ⟨sc, idx, tm, af, ts, pe, pa, vp, ini, des, pbf, sas, iv, peh, adv,
    itp, fp, fts, fd⟩ := c
  obtain ⟨h1, h2, h3, h4⟩ := h
  cases des <;> cases pa <;>
    first
    | exact ⟨h1, h2, h3, h4⟩
    | exact ⟨(clampElapsed_bounds _).1, (clampElapsed_bounds _).2,
        (clamp01_bounds _).1, (clamp01_bounds _).2⟩

lemma resumeAutoplay_bounds (now : Int) (c : Carousel) (h : ProgressBounds c) :
    ProgressBounds (resumeAutoplay now c) := by
  obtain ⟨sc, idx, tm, af, ts, pe, pa, vp, ini, des, pbf, sas, iv, peh, adv,
    itp, fp, fts, fd⟩ := c
  obtain ⟨h1, h2, h3, h4⟩ := h
  cases des <;> cases pa <;> cases vp <;>
    first
    | exact ⟨h1, h2, h3, h4⟩
    | exact startAuto_bounds now _ ⟨h1, h2, h3, h4⟩

lemma pauseForViewport_bounds (now : Int) (c : Carousel) (h : ProgressBounds c) :
    ProgressBounds (pauseForViewport now c) := by
  obtain ⟨sc, idx, tm, af, ts, pe, pa, vp, ini, des, pbf, sas, iv, peh, adv,
    itp, fp, fts, fd⟩ := c
  obtain ⟨h1, h2, h3, h4⟩ := h
  cases des <;> cases vp <;> cases tm <;> cases pa <;>
    first
    | exact ⟨h1, h2, h3, h4⟩
    | exact ⟨(clampElapsed_bounds _).1, (clampElapsed_bounds _).2,
        (clamp01_bounds _).1, (clamp01_bounds _).2⟩
    | exact ⟨h1, h2, (clamp01_bounds _).1, (clamp01_bounds _).2⟩

lemma resumeFromViewportPause_bounds (now : Int) (c : Carousel)
    (h : ProgressBounds c) :
    ProgressBounds (resumeFromViewportPause now c) := by
  obtain ⟨sc, idx, tm, af, ts, pe, pa, vp, ini, des, pbf, sas, iv, peh, adv,
    itp, fp, fts, fd⟩ := c
  obtain ⟨h1, h2, h3, h4⟩ := h
  cases des <;> cases pbf <;> cases sas <;> cases pa <;>
    first
    | exact ⟨h1, h2, h3, h4⟩
    | (simp only [resumeFromViewportPause]
       simp
       first
       | exact ⟨h1, h2, h3, h4⟩
       | exact startAuto_bounds now _ ⟨h1, h2, h3, h4⟩
       | exact startAuto_bounds now _ (completeProgressReset_bounds now _
           ⟨h1, h2, h3, h4⟩))

lemma settleFire_bounds (now : Int) (c : Carousel) (h : ProgressBounds c) :
    ProgressBounds (settleFire now c) := by
  obtain ⟨sc, idx, tm, af, ts, pe, pa, vp, ini, des, pbf, sas, iv, peh, adv,
    itp, fp, fts, fd⟩ := c
  obtain ⟨h1, h2, h3, h4⟩ := h
  cases itp <;> cases vp <;> cases des <;> cases pa <;>
    first
    | exact ⟨h1, h2, h3, h4⟩
    | exact startAuto_bounds now _ ⟨h1, h2, h3, h4⟩

lemma onFullscreenOpen_bounds (now : Int) (c : Carousel) (h : ProgressBounds c) :
    ProgressBounds (onFullscreenOpen now c) := by
  obtain ⟨sc, idx, tm, af, ts, pe, pa, vp, ini, des, pbf, sas, iv, peh, adv,
    itp, fp, fts, fd⟩ := c
  obtain ⟨h1, h2, h3, h4⟩ := h
  cases des <;> cases ini <;>
    first
    | exact ⟨h1, h2, h3, h4⟩
    | exact pauseAutoplay_bounds now _ ⟨h1, h2, h3, h4⟩

lemma onFullscreenClose_bounds (now : Int) (c : Carousel) (h : ProgressBounds c) :
    ProgressBounds (onFullscreenClose now c) := by
  obtain ⟨sc, idx, tm, af, ts, pe, pa, vp, ini, des, pbf, sas, iv, peh, adv,
    itp, fp, fts, fd⟩ := c
  obtain ⟨h1, h2, h3, h4⟩ := h
  cases des <;> cases ini <;> cases iv <;>
    first
    | exact ⟨h1, h2, h3, h4⟩
    | exact startAuto_bounds now _ (completeProgressReset_bounds now _
        ⟨h1, h2, h3, h4⟩)

lemma fireTransitionEnd_bounds (now : Int) (c : Carousel) (h : ProgressBounds c) :
    ProgressBounds (fireTransitionEnd now c) := by
  unfold fireTransitionEnd
  split_ifs
  · exact advanceFire_bounds now c h
  · exact h

lemma fireFallback_bounds (now : Int) (c : Carousel) (h : ProgressBounds c) :
    ProgressBounds (fireFallback now c) := by
  unfold fireFallback
  split_ifs
  · exact advanceFire_bounds now c h
  · exact h
  · exact h

lemma nextSlide_bounds (now : Int) (c : Carousel) (h : ProgressBounds c) :
    ProgressBounds (nextSlide now c) := by
  unfold nextSlide
  split_ifs
  · exact h
  · exact setActive_bounds _ _ _ (completeProgressReset_bounds _ _ h)

lemma prevSlide_bounds (now : Int) (c : Carousel) (h : ProgressBounds c) :
    ProgressBounds (prevSlide now c) := by
  unfold prevSlide
  split_ifs
  · exact h
  · exact setActive_bounds _ _ _ (completeProgressReset_bounds _ _ h)

lemma nextBtnClick_bounds (now : Int) (c : Carousel) (h : ProgressBounds c) :
    ProgressBounds (nextBtnClick now c) := by
  obtain ⟨sc, idx, tm, af, ts, pe, pa, vp, ini, des, pbf, sas, iv, peh, adv,
    itp, fp, fts, fd⟩ := c
  obtain ⟨h1, h2, h3, h4⟩ := h
  cases des <;> cases pa <;> cases vp <;>
    first
    | exact ⟨h1, h2, h3, h4⟩
    | (simp only [nextBtnClick]
       simp
       first
       | exact ⟨h1, h2, h3, h4⟩
       | exact startAuto_bounds now _ (nextSlide_bounds now _ ⟨h1, h2, h3, h4⟩)
       | exact resetProgressBar_bounds _ (nextSlide_bounds now _ ⟨h1, h2, h3, h4⟩)
       | exact nextSlide_bounds now _ ⟨h1, h2, h3, h4⟩)

lemma prevBtnClick_bounds (now : Int) (c : Carousel) (h : ProgressBounds c) :
    ProgressBounds (prevBtnClick now c) := by
  obtain ⟨sc, idx, tm, af, ts, pe, pa, vp, ini, des, pbf, sas, iv, peh, adv,
    itp, fp, fts, fd⟩ := c
  obtain ⟨h1, h2, h3, h4⟩ := h
  cases des <;> cases pa <;> cases vp <;>
    first
    | exact ⟨h1, h2, h3, h4⟩
    | (simp only [prevBtnClick]
       simp
       first
       | exact ⟨h1, h2, h3, h4⟩
       | exact startAuto_bounds now _ (prevSlide_bounds now _ ⟨h1, h2, h3, h4⟩)
       | exact resetProgressBar_bounds _ (prevSlide_bounds now _ ⟨h1, h2, h3, h4⟩)
       | exact prevSlide_bounds now _ ⟨h1, h2, h3, h4⟩)

lemma dotClick_bounds (idx0 : Nat) (now : Int) (c : Carousel)
    (h : ProgressBounds c) : ProgressBounds (dotClick idx0 now c) := by
  obtain ⟨sc, idx, tm, af, ts, pe, pa, vp, ini, des, pbf, sas, iv, peh, adv,
    itp, fp, fts, fd⟩ := c
  obtain ⟨h1, h2, h3, h4⟩ := h
  cases des <;> cases pa <;> cases vp <;>
    first
    | exact ⟨h1, h2, h3, h4⟩
    | (simp only [dotClick]
       simp
       first
       | exact ⟨h1, h2, h3, h4⟩
       | exact startAuto_bounds now _ (setActive_bounds _ _ _
           (completeProgressReset_bounds now _ ⟨h1, h2, h3, h4⟩))
       | exact resetProgressBar_bounds _ (setActive_bounds _ _ _
           (completeProgressReset_bounds now _ ⟨h1, h2, h3, h4⟩))
       | exact setActive_bounds _ _ _
           (completeProgressReset_bounds now _ ⟨h1, h2, h3, h4⟩))

lemma cleanup_bounds (c : Carousel) (h : ProgressBounds c) :
    ProgressBounds (cleanup c) := by
  obtain ⟨h1, h2, h3, h4⟩ := h
  unfold cleanup
  split_ifs
  · exact ⟨h1, h2, h3, h4⟩
  · exact ⟨le_refl 0, by norm_num [intervalMs], h3, h4⟩

lemma initInstance_bounds (now : Int) (c : Carousel) (h : ProgressBounds c) :
    ProgressBounds (initInstance now c) := by
  obtain ⟨h1, h2, h3, h4⟩ := h
  by_cases hgate : (c.destroyed = true ∨ c.initialized = true)
  · unfold initInstance; rw [if_pos hgate]; exact ⟨h1, h2, h3, h4⟩
  · have hd : c.destroyed = false := by
      simp only [not_or, Bool.not_eq_true] at hgate; exact hgate.1
    unfold initInstance
    rw [if_neg hgate]
    by_cases hsc : c.slideCount = 0
    · simp only [hsc]
      simp
      exact ⟨h1, h2, h3, h4⟩
    · have hc0d : ({ c with initialized := true, isInViewport := true } : Carousel).destroyed = false := hd
      have hcpr := completeProgressReset_pe_fill now
        { c with initialized := true, isInViewport := true } hc0d
      have hcprd : (completeProgressReset now { c with initialized := true, isInViewport := true }).destroyed = false := by simp [hd]
      have hsa := setActive_reset_fillPct 0
        (completeProgressReset now { c with initialized := true, isInViewport := true }) hcprd
      have hsape := setActive_pauseElapsed 0 true
        (completeProgressReset now { c with initialized := true, isInViewport := true })
      simp only [hsc]
      simp
      split_ifs <;>
        exact ⟨by simp [hsape, hcpr.1], by simp [hsape, hcpr.1, intervalMs],
          by simp [hsa], by simp [hsa]⟩

lemma pauseAutoplay_pe_fill (now : Int) (c : Carousel)
    (hd : c.destroyed = false) (hp : c.paused = false) :
    (pauseAutoplay now c).pauseElapsed
      = clampElapsed (if c.startTs = 0 then 0 else now - c.startTs) ∧
    ∃ q : ℚ, (pauseAutoplay now c).fillPct = clamp01 q := by
  unfold pauseAutoplay
  rw [if_neg (by simp [hd, hp])]
  exact ⟨by simp, ⟨_, rfl⟩⟩

lemma pauseForViewport_fill_clamped (now : Int) (c : Carousel)
    (hd : c.destroyed = false) (hv : c.viewportPaused = false) :
    ∃ q : ℚ, (pauseForViewport now c).fillPct = clamp01 q := by
  unfold pauseForViewport
  rw [if_neg (by simp [hd, hv])]
  exact ⟨_, rfl⟩

lemma applyOp_bounds (op : Op) (now : Int) (c : Carousel)
    (h : ProgressBounds c) : ProgressBounds (applyOp op now c) := by
  cases op <;> simp only [applyOp] <;>
    first
    | exact nextBtnClick_bounds now c h
    | exact prevBtnClick_bounds now c h
    | exact dotClick_bounds _ now c h
    | exact pauseAutoplay_bounds now c h
    | exact resumeAutoplay_bounds now c h
    | exact pauseForViewport_bounds now c h
    | exact resumeFromViewportPause_bounds now c h
    | exact onFullscreenOpen_bounds now c h
    | exact onFullscreenClose_bounds now c h
    | exact initInstance_bounds now c h
    | exact settleFire_bounds now c h
    | exact fireTransitionEnd_bounds now c h
    | exact fireFallback_bounds now c h
    | exact cleanup_bounds c h

/-- C8: the recorded elapsed time stays in `[0, intervalMs]` and the rendered
progress fraction in `[0, 1]`: both hold at construction, are preserved by
every public operation and scheduled callback, and the pause paths
(`pauseAutoplay`, `pauseForViewport`) and start path (`startAuto`) clamp
their outputs through `clampElapsed`/`clamp01` no matter how much wall-clock
time elapsed. -/
theorem elapsed_and_fill_clamped :
    (∀ n : Nat, ProgressBounds (mkCarousel n)) ∧
    (∀ (op : Op) (now : Int) (c : Carousel),
      ProgressBounds c → ProgressBounds (applyOp op now c)) ∧
    (∀ (now : Int) (c : Carousel), c.destroyed = false → c.paused = false →
      0 ≤ (pauseAutoplay now c).pauseElapsed ∧
      (pauseAutoplay now c).pauseElapsed ≤ intervalMs ∧
      0 ≤ (pauseAutoplay now c).fillPct ∧ (pauseAutoplay now c).fillPct ≤ 1) ∧
    (∀ (now : Int) (c : Carousel), c.destroyed = false →
      c.viewportPaused = false →
      0 ≤ (pauseForViewport now c).fillPct ∧
      (pauseForViewport now c).fillPct ≤ 1) ∧
    (∀ (now : Int) (c : Carousel), c.destroyed = false →
      c.viewportPaused = false →
      0 ≤ (startAuto now c).fillPct ∧ (startAuto now c).fillPct ≤ 1) := by
  refine ⟨?_, ?_, ?_, ?_, ?_⟩
  · intro n
    exact ⟨le_refl 0, by norm_num [mkCarousel, intervalMs], le_refl 0,
      by norm_num [mkCarousel]⟩
  · intro op now c h
    exact applyOp_bounds op now c h
  · intro now c hd hp
    obtain ⟨hpe, q, hfill⟩ := pauseAutoplay_pe_fill now c hd hp
    rw [hpe, hfill]
    exact ⟨(clampElapsed_bounds _).1, (clampElapsed_bounds _).2,
      (clamp01_bounds q).1, (clamp01_bounds q).2⟩
  · intro now c hd hv
    obtain ⟨q, hfill⟩ := pauseForViewport_fill_clamped now c hd hv
    rw [hfill]
    exact ⟨(clamp01_bounds q).1, (clamp01_bounds q).2⟩
  · intro now c hd hv
    rw [startAuto_fillPct_eq now c hd hv]
    exact ⟨(clamp01_bounds _).1, (clamp01_bounds _).2⟩

/-- Witness for C8: the bounds hold concretely, even pausing 10 minutes past
the interval end. -/
theorem elapsed_and_fill_clamped_witness :
    ProgressBounds (mkCarousel 4) ∧
    ProgressBounds (applyOp Op.doInit 0 (mkCarousel 4)) ∧
    0 ≤ (pauseAutoplay 600000 playState).pauseElapsed ∧
    (pauseAutoplay 600000 playState).pauseElapsed ≤ intervalMs ∧
    (pauseAutoplay 600000 playState).fillPct ≤ 1 := by
  have h := elapsed_and_fill_clamped
  have h3 := h.2.2.1 600000 playState (by decide) (by decide)
  exact ⟨h.1 4, h.2.1 Op.doInit 0 (mkCarousel 4) (h.1 4),
    h3.1, h3.2.1, h3.2.2.2⟩

lemma cleanup_skip (c : Carousel) (h : c.destroyed = true) : cleanup c = c := by
  unfold cleanup; rw [if_pos (by simp [h])]

lemma cleanup_timer (c : Carousel) (hd : c.destroyed = false) :
    (cleanup c).timer = false := by
  unfold cleanup; rw [if_neg (by simp [hd])]

lemma cleanup_initTimerPending (c : Carousel) (hd : c.destroyed = false) :
    (cleanup c).initTimerPending = false := by
  unfold cleanup; rw [if_neg (by simp [hd])]

lemma advanceFire_skip (now : Int) (c : Carousel) (hd : c.destroyed = true) :
    advanceFire now c = c := by
  unfold advanceFire
  split_ifs with a b
  · rfl
  · rfl
  · simp [hd] at b

lemma initInstance_skip (now : Int) (c : Carousel)
    (h : c.destroyed = true ∨ c.initialized = true) : initInstance now c = c := by
  unfold initInstance; rw [if_pos h]

/-- Every operation on a destroyed-and-quiescent instance (no scheduled
timeout, no pending settle timer — the state `cleanup` leaves behind) is a
no-op. -/
lemma applyOp_skip (op : Op) (now : Int) (c : Carousel)
    (hdes : c.destroyed = true) (htm : c.timer = false)
    (hitp : c.initTimerPending = false) : applyOp op now c = c := by
  cases op with
  | nextBtn => unfold applyOp nextBtnClick; rw [if_pos (by simp [hdes])]
  | prevBtn => unfold applyOp prevBtnClick; rw [if_pos (by simp [hdes])]
  | dot idx =>
    show dotClick idx now c = c
    unfold dotClick; rw [if_pos (by simp [hdes])]
  | pauseManual =>
    unfold applyOp pauseAutoplay; rw [if_pos (Or.inl (by simp [hdes]))]
  | resumeManual =>
    unfold applyOp resumeAutoplay; rw [if_pos (Or.inl (by simp [hdes]))]
  | pauseViewport =>
    unfold applyOp pauseForViewport; rw [if_pos (Or.inl (by simp [hdes]))]
  | resumeViewport =>
    unfold applyOp resumeFromViewportPause; rw [if_pos (by simp [hdes])]
  | fsOpen => unfold applyOp onFullscreenOpen; rw [if_pos (by simp [hdes])]
  | fsClose => unfold applyOp onFullscreenClose; rw [if_pos (by simp [hdes])]
  | doInit => exact initInstance_skip now c (Or.inl hdes)
  | settle => unfold applyOp settleFire; rw [if_pos (by simp [hitp])]
  | transEnd =>
    unfold applyOp fireTransitionEnd
    split_ifs
    · exact advanceFire_skip now c hdes
    · rfl
  | fallback => unfold applyOp fireFallback; rw [if_pos (by simp [htm])]
  | teardown => exact cleanup_skip c hdes

/-- C5: `cleanup` is an idempotent terminal operation — repeating it (any
number of times) yields the state of a single call, `destroyed` never
reverts under any operation, every public operation and stale scheduled
callback on a cleaned-up instance is a no-op that mutates nothing, and a
second `initialize` is a no-op. -/
theorem teardown_idempotent_terminal :
    (∀ s : Carousel, cleanup (cleanup s) = cleanup s) ∧
    (∀ (s : Carousel) (k : Nat), cleanup^[k + 1] s = cleanup s) ∧
    (∀ s : Carousel, (cleanup s).destroyed = true) ∧
    (∀ (op : Op) (now : Int) (s : Carousel), s.destroyed = false →
      applyOp op now (cleanup s) = cleanup s) ∧
    (∀ (op : Op) (now : Int) (s : Carousel), s.destroyed = true →
      (applyOp op now s).destroyed = true) ∧
    (∀ (t1 t2 : Int) (s : Carousel),
      initInstance t2 (initInstance t1 s) = initInstance t1 s) := by
  have hidem : ∀ s : Carousel, cleanup (cleanup s) = cleanup s := fun s =>
    cleanup_skip (cleanup s) (cleanup_destroyed s)
  refine ⟨hidem, ?_, cleanup_destroyed, ?_, ?_, ?_⟩
  · intro s k
    induction k with
    | zero => simp
    | succ k ih =>
      rw [Function.iterate_succ_apply', ih, hidem]
  · intro op now s hs
    exact applyOp_skip op now (cleanup s) (cleanup_destroyed s)
      (cleanup_timer s hs) (cleanup_initTimerPending s hs)
  · intro op now s hs
    cases op <;> simp [applyOp, hs, cleanup_skip s hs]
  · intro t1 t2 s
    by_cases h : (s.destroyed = true ∨ s.initialized = true)
    · rw [initInstance_skip t1 s h, initInstance_skip t2 s h]
    · have hd : s.destroyed = false := by
        simp only [not_or, Bool.not_eq_true] at h; exact h.1
      apply initInstance_skip
      exact Or.inr (initInstance_initialized t1 s hd)

/-- Witness for C5 on concrete states. -/
theorem teardown_idempotent_terminal_witness :
    cleanup (cleanup playState) = cleanup playState ∧
    applyOp Op.nextBtn 500 (cleanup playState) = cleanup playState ∧
    applyOp Op.transEnd 5100 (cleanup playState) = cleanup playState ∧
    initInstance 7 (initInstance 3 (mkCarousel 4))
      = initInstance 3 (mkCarousel 4) := by
  have h := teardown_idempotent_terminal
  exact ⟨h.1 playState, h.2.2.2.1 Op.nextBtn 500 playState (by decide),
    h.2.2.2.1 Op.transEnd 5100 playState (by decide),
    h.2.2.2.2.2 3 7 (mkCarousel 4)⟩

/-- State of the module-level `carouselViewportObserver` IIFE
(script.js:1749-1878): whether the `observer` object exists, the
`observedCarousels` map (container identity to its `isInitialized` cell;
the carousel states themselves live outside), and the `isDestroying`
latch. -/
structure ViewportObserverState where
  /-- `let observer = null` : an IntersectionObserver has been constructed. -/
  observerCreated : Bool
  /-- `const observedCarousels = new Map()` keyed by container identity. -/
  observed : List (Nat × Bool)
  /-- `let isDestroying = false` -/
  isDestroying : Bool
  deriving Repr, DecidableEq

/-- `initObserver` (script.js:1754-1829): early-out when the observer exists
or cleanup is running, otherwise `new IntersectionObserver(...)` inside
try/catch.  `envSupported = false` models the constructor throwing: the
catch logs the error and leaves `observer = null`; nothing propagates. -/
def initObserver (envSupported : Bool)
    (s : ViewportObserverState) : ViewportObserverState :=
  if s.observerCreated ∨ s.isDestroying then s
  else if envSupported then { s with observerCreated := true }
  else s

/-- `observe` (script.js:1831-1849): when `initObserver()` yields no
observer, return without registering the carousel (`if (!obs) return;`);
otherwise record the container with a fresh `isInitialized = false` cell and
start observing. -/
def vpObserve (envSupported : Bool) (s : ViewportObserverState)
    (cid : Nat) : ViewportObserverState :=
  if s.isDestroying then s
  else
    let s1 := initObserver envSupported s
    if ¬s1.observerCreated then s1
    else { s1 with
      observed := (cid, false) :: s1.observed.filter (fun p => p.1 != cid) }

/-- Processing of one IntersectionObserver entry (script.js:1760-1815): a
container absent from `observedCarousels` is ignored; on intersecting, a
first sight calls `initialize` and flips the cell, otherwise
`resumeFromViewportPause`; on exit, only initialized instances get
`pauseForViewport`. -/
def onIntersection (s : ViewportObserverState) (cid : Nat)
    (isIntersecting : Bool) (now : Int) (car : Carousel) :
    ViewportObserverState × Carousel :=
  if s.isDestroying then (s, car)
  else
    match s.observed.lookup cid with
    | none => (s, car)
    | some isInit =>
      if isIntersecting then
        if ¬isInit then
          ({ s with observed :=
              (cid, true) :: s.observed.filter (fun p => p.1 != cid) },
            initInstance now car)
        else (s, resumeFromViewportPause now car)
      else
        if isInit then (s, pauseForViewport now car) else (s, car)

/-- Counterexample to C6 as stated: in an unsupported environment
(`envSupported = false`) `observe` registers nothing, so the instance is NOT
"initialized immediately" — it is never initialized at all, and autoplay
never starts; the code degrades to never-visible, not always-visible. -/
theorem observer_unsupported_counterexample :
    vpObserve false ⟨false, [], false⟩ 0 = ⟨false, [], false⟩ ∧
    (onIntersection (vpObserve false ⟨false, [], false⟩ 0) 0 true 0
      (mkCarousel 3)).2.initialized = false ∧
    (mkCarousel 3).initialized = false := by
  refine ⟨by decide, by decide, by decide⟩

/-- C6 amended: if the IntersectionObserver cannot be constructed,
`initObserver` catches the error and `observe` returns without throwing
(totality of the model) and without registering the carousel; the instance
is therefore never initialized and never viewport-paused by intersection
events — autoplay simply never starts (there is no always-visible
fallback). -/
theorem observer_unsupported_never_initializes
    (s : ViewportObserverState) (cid : Nat) (car : Carousel) (now : Int)
    (inter : Bool) (hobs : s.observerCreated = false)
    (hlook : s.observed.lookup cid = none) :
    vpObserve false s cid = s ∧
    onIntersection s cid inter now car = (s, car) ∧
    (onIntersection s cid inter now car).2.initialized = car.initialized ∧
    (onIntersection s cid inter now car).2.viewportPaused
      = car.viewportPaused := by
  have h1 : vpObserve false s cid = s := by
    unfold vpObserve initObserver
    split_ifs <;> simp_all
  have h2 : onIntersection s cid inter now car = (s, car) := by
    unfold onIntersection
    rw [hlook]
    split_ifs <;> rfl
  exact ⟨h1, h2, by rw [h2], by rw [h2]⟩

/-- Witness for the amended C6 at a concrete fresh observer and carousel. -/
theorem observer_unsupported_never_initializes_witness :
    vpObserve false ⟨false, [], false⟩ 5 = ⟨false, [], false⟩ ∧
    (onIntersection ⟨false, [], false⟩ 5 true 0 (mkCarousel 3)).2.initialized
      = (mkCarousel 3).initialized := by
  have h := observer_unsupported_never_initializes ⟨false, [], false⟩ 5
    (mkCarousel 3) 0 true (by decide) (by decide)
  exact ⟨h.1, h.2.2.1⟩

/-- The pause/resume requests of the three sources as exposed by
`carouselState`: viewport (`pauseForViewport`/`resumeFromViewportPause`),
manual pause (`pauseAutoplay`), fullscreen
(`onFullscreenOpen`/`onFullscreenClose`).  The manual resume
(`resumeAutoplay`) is handled separately because it ignores the fullscreen
flag. -/
inductive PROp where
  | pauseViewport : PROp
  | resumeViewport : PROp
  | pauseManual : PROp
  | fsOpen : PROp
  | fsClose : PROp
  deriving Repr, DecidableEq

def prStep (op : PROp) (now : Int) (c : Carousel) : Carousel :=
  match op with
  | .pauseViewport => pauseForViewport now c
  | .resumeViewport => resumeFromViewportPause now c
  | .pauseManual => pauseAutoplay now c
  | .fsOpen => onFullscreenOpen now c
  | .fsClose => onFullscreenClose now c

/-- A sequence of pause/resume requests with their arrival times. -/
def prRun (l : List (PROp × Int)) (c : Carousel) : Carousel :=
  l.foldl (fun s p => prStep p.1 p.2 s) c

/-- The play-iff-no-pause-flags invariant of an initialized, live instance,
together with the auxiliary facts that make it inductive: `isInViewport`
mirrors `!viewportPaused`, and a fullscreen pause always holds the manual
flag too (`onFullscreenOpen` pauses through `pauseAutoplay`). -/
def PlayInv (c : Carousel) : Prop :=
  c.initialized = true ∧ c.destroyed = false ∧
  c.isInViewport = !c.viewportPaused ∧
  (c.pausedByFullscreen = true → c.paused = true) ∧
  (c.timer = true ↔ (c.viewportPaused = false ∧ c.paused = false ∧
    c.pausedByFullscreen = false))

set_option maxHeartbeats 2000000 in
lemma prStep_playInv (op : PROp) (now : Int) (c : Carousel) (h : PlayInv c) :
    PlayInv (prStep op now c) := by
  obtain ⟨sc, idx, tm, af, ts, pe, pa, vp, ini, des, pbf, sas, iv, peh, adv,
    itp, fp, fts, fd⟩ := c
  obtain ⟨hini, hdes, hiv, hpbf, htmr⟩ := h
  subst hini
  subst hdes
  have hiv2 : iv = !vp := hiv
  subst hiv2
  simp only [Carousel.pausedByFullscreen, Carousel.paused, Carousel.timer,
    Carousel.viewportPaused] at hpbf htmr
  cases op <;> cases tm <;> cases pa <;> cases vp <;> cases pbf <;> cases sas <;>
    first
    | exact absurd (hpbf rfl) (by decide)
    | exact absurd (htmr.mp rfl) (by decide)
    | exact absurd (htmr.mpr (by decide)) (by decide)
    | (unfold PlayInv prStep
       simp [pauseForViewport, resumeFromViewportPause, pauseAutoplay,
         onFullscreenOpen, onFullscreenClose, stopAuto, startAuto,
         completeProgressReset])

set_option maxHeartbeats 1000000 in
lemma resumeAutoplay_playInv (now : Int) (c : Carousel) (h : PlayInv c)
    (hfs : c.pausedByFullscreen = false) : PlayInv (resumeAutoplay now c) := by
  obtain ⟨sc, idx, tm, af, ts, pe, pa, vp, ini, des, pbf, sas, iv, peh, adv,
    itp, fp, fts, fd⟩ := c
  obtain ⟨hini, hdes, hiv, hpbf, htmr⟩ := h
  subst hini
  subst hdes
  have hiv2 : iv = !vp := hiv
  subst hiv2
  have hfs2 : pbf = false := hfs
  subst hfs2
  simp only [Carousel.pausedByFullscreen, Carousel.paused, Carousel.timer,
    Carousel.viewportPaused] at hpbf htmr
  cases tm <;> cases pa <;> cases vp <;> cases sas <;>
    first
    | exact absurd (htmr.mp rfl) (by decide)
    | exact absurd (htmr.mpr (by decide)) (by decide)
    | (unfold PlayInv
       simp [resumeAutoplay, startAuto, stopAuto])

/-- Counterexample to C1 as stated: starting from a playing instance, the
interleaving requestPause(fullscreen) then requestResume(manual) —
`onFullscreenOpen` followed by `resumeAutoplay`, whose guard checks only
`viewportPaused` — leaves the autoplay timer running while the fullscreen
pause flag is still set, so "timer running iff no pause source's flag is
set" fails for this sequence. -/
theorem play_iff_no_pause_flags_counterexample :
    (resumeAutoplay 3100 (onFullscreenOpen 2100 playState)).timer = true ∧
    (resumeAutoplay 3100 (onFullscreenOpen 2100 playState)).pausedByFullscreen
      = true := ⟨by decide, by decide⟩

/-- C1 amended: for every sequence of pause/resume requests from the three
sources in which a manual resume is only ever issued while the fullscreen
flag is clear, the autoplay timer of an initialized, non-destroyed instance
runs iff no pause source's flag is set — resuming one source while another
still holds a pause does not restart the timer, and any flag going true
stops it.  `resumeAutoplay` preserves the invariant only under
`pausedByFullscreen = false`; issued during a fullscreen pause it restarts
the timer with the flag still set (see the counterexample). -/
theorem play_iff_no_pause_flags :
    (∀ (l : List (PROp × Int)) (c : Carousel), PlayInv c →
      ((prRun l c).timer = true ↔
        ((prRun l c).viewportPaused = false ∧ (prRun l c).paused = false ∧
         (prRun l c).pausedByFullscreen = false))) ∧
    (∀ (l : List (PROp × Int)) (c : Carousel), PlayInv c →
      PlayInv (prRun l c)) ∧
    (∀ (now : Int) (c : Carousel), PlayInv c →
      c.pausedByFullscreen = false → PlayInv (resumeAutoplay now c)) := by
  have hrun : ∀ (l : List (PROp × Int)) (c : Carousel), PlayInv c →
      PlayInv (prRun l c) := by
    intro l
    induction l with
    | nil => intro c h; exact h
    | cons p tl ih =>
      intro c h
      exact ih _ (prStep_playInv p.1 p.2 c h)
  exact ⟨fun l c h => (hrun l c h).2.2.2.2, hrun, resumeAutoplay_playInv⟩

/-- Witness for C1: a concrete interleaving — viewport exit, fullscreen
open, viewport re-entry, fullscreen close — ends with the timer running and
every pause flag clear. -/
theorem play_iff_no_pause_flags_witness :
    PlayInv (prRun [(PROp.pauseViewport, 2100), (PROp.fsOpen, 3000),
      (PROp.resumeViewport, 4000), (PROp.fsClose, 5000)] playState) ∧
    ((prRun [(PROp.pauseViewport, 2100), (PROp.fsOpen, 3000),
      (PROp.resumeViewport, 4000), (PROp.fsClose, 5000)] playState).timer = true ↔
      ((prRun [(PROp.pauseViewport, 2100), (PROp.fsOpen, 3000),
        (PROp.resumeViewport, 4000), (PROp.fsClose, 5000)] playState).viewportPaused = false ∧
       (prRun [(PROp.pauseViewport, 2100), (PROp.fsOpen, 3000),
        (PROp.resumeViewport, 4000), (PROp.fsClose, 5000)] playState).paused = false ∧
       (prRun [(PROp.pauseViewport, 2100), (PROp.fsOpen, 3000),
        (PROp.resumeViewport, 4000), (PROp.fsClose, 5000)] playState).pausedByFullscreen = false)) := by
  have h := play_iff_no_pause_flags
  refine ⟨h.2.1 _ playState ?hp, h.1 _ playState ?hp⟩
  case hp => unfold PlayInv; decide
